import Mathlib

/-!
# Verification of the AED ETL pipeline DAG engine

Shallow embedding of `backend/app/services/validation.py` and
`backend/app/services/runner.py`.  Python dictionaries are modelled as
association lists, Python values by the `Val` inductive, tabular cells by
`Cell`, and Python exceptions by the `PyErr` inductive threaded through
`Except`.  External tabular I/O (pandas `read_csv`, database drivers, …) is
abstracted behind a `Provider` record, exactly at the interface boundary the
specification draws in §6.  Numeric data is modelled over the integers: the
claims under study involve only integer- and string-valued cells, and no
claim concerns floating-point arithmetic.
-/

/-- Python values appearing in node configurations (JSON-shaped). -/
inductive Val where
  | none
  | str (s : String)
  | int (n : Int)
  | bool (b : Bool)
  | list (xs : List Val)
  | dict (m : List (String × Val))

/-- A cell of a tabular dataset: missing (`NaN`/`None`), a string, or an
integer.  The claims under study involve no floating-point data. -/
inductive Cell where
  | null
  | str (s : String)
  | int (n : Int)
deriving DecidableEq, Repr

/-- Python exceptions raised by the engine.  `fuelExhausted` is a
model-only marker for exhausted recursion fuel; it is proved unreachable
wherever a theorem depends on it.  `unmodelled` marks operator branches
(floating-point, datetime, external-I/O details) outside the modelled
fragment; no claim exercises their semantics. -/
inductive PyErr where
  | valueError (msg : String)
  | keyError (key : Option String)
  | attributeError (msg : String)
  | typeError (msg : String)
  | fuelExhausted
  | unmodelled (what : String)
deriving DecidableEq, Repr

/-- `str(e)` for the exceptions we model (`KeyError` reprs its key). -/
def pyErrStr : PyErr → String
  | .valueError m => m
  | .keyError (some k) => "\x27" ++ k ++ "\x27"
  | .keyError Option.none => "None"
  | .attributeError m => m
  | .typeError m => m
  | .fuelExhausted => "model fuel exhausted"
  | .unmodelled w => w

/-- Python truthiness of an optional string (`None` and `""` are falsy). -/
def truthyS : Option String → Bool
  | Option.none => false
  | some s => s ≠ ""

/-- Python `a or b` on optional strings: `b` is returned as-is when `a` is
falsy. -/
def pyOr (a b : Option String) : Option String :=
  if truthyS a then a else b

/-- Python truthiness of a configuration value. -/
def valTruthy : Val → Bool
  | .none => false
  | .str s => s ≠ ""
  | .int n => n ≠ 0
  | .bool b => b
  | .list xs => !xs.isEmpty
  | .dict m => !m.isEmpty

/-- Python truthiness of `d.get(k)`: `None` (absent key) is falsy. -/
def valTruthyO : Option Val → Bool
  | Option.none => false
  | some v => valTruthy v

/-- `str(v)` for configuration values (as used in messages and in
`str(value)` inside FILTER's `contains`). -/
def pyStr : Val → String
  | .none => "None"
  | .str s => s
  | .int n => toString n
  | .bool b => if b then "True" else "False"
  | .list _ => "[...]"
  | .dict _ => "\x7b...\x7d"

/-- A Python dict with string keys, as an association list (keys unique). -/
abbrev PyDict := List (String × Val)

/-- `d.get(k)` (first binding wins; dict keys are unique). -/
def dictGet (d : PyDict) (k : String) : Option Val :=
  match d.find? (fun p => p.1 = k) with
  | some p => some p.2
  | Option.none => Option.none

/-- `k in d` for a Python dict. -/
def dictHasKey (d : PyDict) (k : String) : Bool :=
  d.any (fun p => p.1 = k)

/-- An edge of the pipeline JSON.  Producers may use any of the keys
`from`/`from_node`/`source` and `to`/`to_node`/`target`; each field holds
the value of the corresponding key when present. -/
structure Edge where
  fromKey : Option String := Option.none
  fromNodeKey : Option String := Option.none
  sourceKey : Option String := Option.none
  toKey : Option String := Option.none
  toNodeKey : Option String := Option.none
  targetKey : Option String := Option.none

/-- A node of the pipeline JSON.  `node['id']` is always present (every
code path indexes it unconditionally); `type`, `subtype` and `config` are
optional keys. -/
structure Node where
  id : String
  typ : Option String := Option.none
  subtype : Option String := Option.none
  config : Option PyDict := Option.none

/-- The pipeline JSON: `pipeline_json.get('nodes', [])` / `.get('edges', [])`. -/
structure Pipeline where
  nodes : List Node
  edges : List Edge

/-- Worker for `dedupKeys`: drop elements already seen. -/
def dedupGo : List String → List String → List String
  | [], _ => []
  | x :: xs, seen => if x ∈ seen then dedupGo xs seen else x :: dedupGo xs (seen ++ [x])

/-- Keys of `{node['id']: ... for node in nodes}`: first-occurrence order,
duplicates collapsed. -/
def dedupKeys (l : List String) : List String := dedupGo l []

theorem dedupGo_of_nodup : ∀ {l seen : List String}, l.Nodup →
    (∀ x ∈ l, x ∉ seen) → dedupGo l seen = l
  | [], _, _, _ => rfl
  | x :: xs, seen, h, hd => by
    rw [dedupGo, if_neg (hd x (List.mem_cons_self x xs))]
    congr 1
    exact dedupGo_of_nodup (List.nodup_cons.mp h).2 (fun y hy => by
      intro hmem
      rcases List.mem_append.mp hmem with h1 | h2
      · exact hd y (List.mem_cons_of_mem x hy) h1
      · exact (List.nodup_cons.mp h).1 ((List.mem_singleton.mp h2) ▸ hy))

theorem dedupKeys_of_nodup {l : List String} (h : l.Nodup) : dedupKeys l = l :=
  dedupGo_of_nodup h (fun _ _ => List.not_mem_nil _)

/-! ## validation.py -/

/-- `edge.get('from') or edge.get('from_node') or edge.get('source')`
(validation.py lines 64, 115, 235). -/
def vResolveFrom (e : Edge) : Option String :=
  pyOr (pyOr e.fromKey e.fromNodeKey) e.sourceKey

/-- `edge.get('to') or edge.get('to_node') or edge.get('target')`
(validation.py lines 65, 116, 236). -/
def vResolveTo (e : Edge) : Option String :=
  pyOr (pyOr e.toKey e.toNodeKey) e.targetKey

/-- The adjacency-building loop of `detect_cycles` (lines 62-67).
`adjacency = {node['id']: [] for node in nodes}` then, for each edge with
truthy endpoints, `adjacency[from_node].append(to_node)` — a `KeyError`
when `from_node` is not a node id.  `in`-degree is not tracked here. -/
def dcBuild (keys : List String) : List Edge → (String → List String) →
    Except PyErr (String → List String)
  | [], adj => .ok adj
  | e :: rest, adj =>
    match vResolveFrom e, vResolveTo e with
    | some u, some t =>
      if u = "" ∨ t = "" then dcBuild keys rest adj
      else if u ∈ keys then
        dcBuild keys rest (fun x => if x = u then adj x ++ [t] else adj x)
      else .error (.keyError (some u))
    | _, _ => dcBuild keys rest adj

/-- Mutable state of `detect_cycles`' DFS: the `visited` set, the
`rec_stack` set and the accumulated error strings. -/
structure DcSt where
  visited : List String
  stacked : List String
  errors : List String

/-- One recursive `dfs` activation of `detect_cycles`, defunctionalized:
the node whose neighbor loop is running, and the neighbors not yet
examined. -/
abbrev DcFrame := String × List String

/-- The recursive `dfs(node_id, path)` of `detect_cycles` (lines 73-92) as
a fuel-indexed machine over an explicit activation stack.  Entering a node
adds it to `visited`, `rec_stack` and `path` and pushes a frame holding its
adjacency list; finishing a frame performs the cleanup
`rec_stack.remove(node_id); path.pop()`; detecting a cycle (a neighbor on
`rec_stack`) records the cycle string and abandons the whole stack — the
source's chain of early `return True`s, which skips every cleanup.
`path.index(neighbor)` raises `ValueError` when the neighbor is on the
(possibly stale) recursion stack but not on the current path. -/
def dcRun (adj : String → List String) : Nat → List DcFrame → List String → DcSt →
    Except PyErr DcSt
  | 0, _, _, _ => .error .fuelExhausted
  | _ + 1, [], _, st => .ok st
  | fuel + 1, (nid, []) :: frames, path, st =>
    dcRun adj fuel frames path.dropLast { st with stacked := st.stacked.erase nid }
  | fuel + 1, (nid, nb :: rest) :: frames, path, st =>
    if nb ∉ st.visited then
      dcRun adj fuel ((nb, adj nb) :: (nid, rest) :: frames) (path ++ [nb])
        { st with visited := st.visited ++ [nb], stacked := st.stacked ++ [nb] }
    else if nb ∈ st.stacked then
      match path.indexOf? nb with
      | Option.none => .error (.valueError ("\x27" ++ nb ++ "\x27 is not in list"))
      | some i =>
        let cycle := " → ".intercalate (path.drop i ++ [nb])
        .ok { st with errors := st.errors ++ ["Cycle detected: " ++ cycle] }
    else dcRun adj fuel ((nid, rest) :: frames) path st

/-- Top-level call `dfs(root, [])`. -/
def dcDfs (adj : String → List String) (fuel : Nat) (root : String) (st : DcSt) :
    Except PyErr DcSt :=
  dcRun adj fuel [(root, adj root)] [root]
    { st with visited := st.visited ++ [root], stacked := st.stacked ++ [root] }

/-- The root loop of `detect_cycles` (lines 94-96): one DFS per
still-unvisited node, in node-list order. -/
def dcRoots (adj : String → List String) (fuel : Nat) :
    List String → DcSt → Except PyErr DcSt
  | [], st => .ok st
  | nid :: rest, st =>
    if nid ∈ st.visited then dcRoots adj fuel rest st
    else
      match dcDfs adj fuel nid st with
      | .error e => .error e
      | .ok st' => dcRoots adj fuel rest st'

/-- `detect_cycles(nodes, edges)` (validation.py lines 55-98).  The machine
fuel bounds the number of elementary DFS steps per root; each root call
performs at most one step per node entry plus one per examined edge plus
the final stack unwinding, so the chosen fuel is never the binding
constraint on the concrete graphs evaluated below. -/
def detect_cycles (nodes : List Node) (edges : List Edge) :
    Except PyErr (List String) :=
  let keys := dedupKeys (nodes.map (·.id))
  match dcBuild keys edges (fun _ => []) with
  | .error e => .error e
  | .ok adj =>
    match dcRoots adj (2 * (nodes.length + edges.length) + 4) (nodes.map (·.id))
        ⟨[], [], []⟩ with
    | .error e => .error e
    | .ok st => .ok st.errors

/-- The edge loop of `detect_orphan_nodes` (lines 114-120): collect the
sets of node names with outgoing resp. incoming edges. -/
def orphanSets : List Edge → List String × List String
  | [] => ([], [])
  | e :: rest =>
    let (outs, ins) := orphanSets rest
    let outs' := match vResolveFrom e with
      | some u => if u = "" then outs else u :: outs
      | Option.none => outs
    let ins' := match vResolveTo e with
      | some t => if t = "" then ins else t :: ins
      | Option.none => ins
    (outs', ins')

/-- `detect_orphan_nodes(nodes, edges)` (validation.py lines 101-145). -/
def detect_orphan_nodes (nodes : List Node) (edges : List Edge) : List String :=
  let (outs, ins) := orphanSets edges
  nodes.flatMap (fun node =>
    let nid := node.id
    let hasIn := nid ∈ ins
    let hasOut := nid ∈ outs
    match node.typ with
    | some "SOURCE" =>
      if !hasOut then ["Source node \x27" ++ nid ++ "\x27 has no outgoing connections"] else []
    | some "LOAD" =>
      if !hasIn then ["Load node \x27" ++ nid ++ "\x27 has no incoming connections"] else []
    | some "TRANSFORM" =>
      (if !hasIn then ["Transform node \x27" ++ nid ++ "\x27 has no incoming connections"] else [])
        ++ (if !hasOut then ["Transform node \x27" ++ nid ++ "\x27 has no outgoing connections"] else [])
    | _ =>
      if !hasIn && !hasOut then ["Node \x27" ++ nid ++ "\x27 has no connections"] else [])

/-- `validate_node_configs(nodes)` (validation.py lines 148-223). -/
def validate_node_configs (nodes : List Node) : List String :=
  nodes.flatMap (fun node =>
    let nid := node.id
    let config := node.config.getD []
    let req (k : String) (msg : String) : List String :=
      if valTruthyO (dictGet config k) then [] else ["Node \x27" ++ nid ++ "\x27: " ++ msg]
    match node.subtype with
    | some "CSV_SOURCE" => req "file_path" "CSV source requires \x27file_path\x27"
    | some "EXCEL_SOURCE" => req "file_path" "Excel source requires \x27file_path\x27"
    | some "JSON_SOURCE" => req "file_path" "JSON source requires \x27file_path\x27"
    | some "DB_SOURCE" =>
      req "connection_string" "Database source requires \x27connection_string\x27"
        ++ (if !valTruthyO (dictGet config "table_name") && !valTruthyO (dictGet config "query")
            then ["Node \x27" ++ nid ++ "\x27: Database source requires \x27table_name\x27 or \x27query\x27"]
            else [])
    | some "FILTER" =>
      req "column" "Filter requires \x27column\x27"
        ++ req "operator" "Filter requires \x27operator\x27"
        ++ (if !dictHasKey config "value"
            then ["Node \x27" ++ nid ++ "\x27: Filter requires \x27value\x27"] else [])
    | some "SELECT" => req "columns" "Select requires \x27columns\x27 list"
    | some "RENAME" => req "mapping" "Rename requires \x27mapping\x27 dictionary"
    | some "CAST" =>
      req "column" "Cast requires \x27column\x27" ++ req "dtype" "Cast requires \x27dtype\x27"
    | some "AGGREGATE" =>
      req "group_by" "Aggregate requires \x27group_by\x27"
        ++ req "aggregations" "Aggregate requires \x27aggregations\x27"
    | some "JOIN" =>
      req "join_type" "Join requires \x27join_type\x27"
        ++ (if !valTruthyO (dictGet config "left_on") || !valTruthyO (dictGet config "right_on")
            then ["Node \x27" ++ nid ++ "\x27: Join requires \x27left_on\x27 and \x27right_on\x27"]
            else [])
    | some "CSV_LOAD" => req "output_path" "Load requires \x27output_path\x27"
    | some "EXCEL_LOAD" => req "output_path" "Load requires \x27output_path\x27"
    | some "JSON_LOAD" => req "output_path" "Load requires \x27output_path\x27"
    | some "DB_LOAD" =>
      req "connection_string" "Database load requires \x27connection_string\x27"
        ++ req "table_name" "Database load requires \x27table_name\x27"
    | _ => [])

/-- The per-edge body of `validate_edges` (lines 234-248). -/
def validateEdge (nodeIds : List String) (idx : Nat) (e : Edge) : List String :=
  let fn := vResolveFrom e
  let tn := vResolveTo e
  if !truthyS fn then ["Edge " ++ toString idx ++ ": Missing \x27from\x27 node"]
  else if !truthyS tn then ["Edge " ++ toString idx ++ ": Missing \x27to\x27 node"]
  else
    let u := fn.getD ""
    let t := tn.getD ""
    (if u ∉ nodeIds
     then ["Edge " ++ toString idx ++ ": \x27from\x27 node \x27" ++ u ++ "\x27 does not exist"]
     else [])
      ++ (if t ∉ nodeIds
          then ["Edge " ++ toString idx ++ ": \x27to\x27 node \x27" ++ t ++ "\x27 does not exist"]
          else [])

/-- `validate_edges(nodes, edges)` (validation.py lines 226-250). -/
def validate_edges (nodes : List Node) (edges : List Edge) : List String :=
  let nodeIds := nodes.map (·.id)
  (List.range edges.length).flatMap (fun i =>
    match edges[i]? with
    | some e => validateEdge nodeIds i e
    | Option.none => [])

/-- `validate_pipeline_structure(nodes, edges)` (validation.py lines 253-269). -/
def validate_pipeline_structure (nodes : List Node) (_edges : List Edge) : List String :=
  (if nodes.all (fun n => n.typ ≠ some "SOURCE")
   then ["Pipeline must have at least one SOURCE node"] else [])
    ++ (if nodes.all (fun n => n.typ ≠ some "LOAD")
        then ["Pipeline must have at least one LOAD node"] else [])

/-- `validate_pipeline(pipeline_json)` (validation.py lines 17-52).
Returns `(is_valid, errors)`; exceptions escaping the checks (there is no
try/except in the source) surface as `.error`. -/
def validate_pipeline (p : Pipeline) : Except PyErr (Bool × List String) :=
  let nodes := p.nodes
  let edges := p.edges
  if nodes.isEmpty then .ok (false, ["Pipeline must contain at least one node"])
  else
    match detect_cycles nodes edges with
    | .error e => .error e
    | .ok cycleErrors =>
      let errors := cycleErrors
        ++ detect_orphan_nodes nodes edges
        ++ validate_node_configs nodes
        ++ validate_edges nodes edges
        ++ validate_pipeline_structure nodes edges
      .ok (errors.isEmpty, errors)

/-! ## runner.py — topological sort -/

/-- `edge.get('from') or edge.get('from_node')` (runner.py line 107): the
`source` alias is NOT consulted here, unlike everywhere else. -/
def tsResolveFrom (e : Edge) : Option String :=
  pyOr e.fromKey e.fromNodeKey

/-- `edge.get('to') or edge.get('to_node')` (runner.py line 108): the
`target` alias is NOT consulted here. -/
def tsResolveTo (e : Edge) : Option String :=
  pyOr e.toKey e.toNodeKey

/-- The adjacency/in-degree building loop of `topological_sort`
(runner.py lines 106-110): `adjacency[from_node].append(to_node)` then
`in_degree[to_node] += 1`, each a `KeyError` when the resolved endpoint is
not a key of the dicts keyed by node id (in particular when it is `None`
because the edge used the `source`/`target` aliases).  An error aborts the
whole call, so the partially mutated state is never observable. -/
def tsBuild (keys : List String) : List Edge → (String → List String) →
    (String → Int) → Except PyErr ((String → List String) × (String → Int))
  | [], adj, deg => .ok (adj, deg)
  | e :: rest, adj, deg =>
    match tsResolveFrom e with
    | some u =>
      if u ∈ keys then
        match tsResolveTo e with
        | some t =>
          if t ∈ keys then
            tsBuild keys rest (fun x => if x = u then adj x ++ [t] else adj x)
              (fun x => if x = t then deg x + 1 else deg x)
          else .error (.keyError (some t))
        | Option.none => .error (.keyError Option.none)
      else .error (.keyError (some u))
    | Option.none => .error (.keyError Option.none)

/-- The `for neighbor in adjacency[node_id]` body of `topological_sort`
(lines 121-124): decrement each neighbor's in-degree, enqueueing it when
the count reaches zero. -/
def processNeighbors : List String → (String → Int) → List String →
    ((String → Int) × List String)
  | [], deg, queue => (deg, queue)
  | nb :: rest, deg, queue =>
    let v := deg nb - 1
    let deg' := fun x => if x = nb then v else deg x
    processNeighbors rest deg' (if v = 0 then queue ++ [nb] else queue)

/-- The `while queue` loop of `topological_sort` (lines 116-124),
fuel-indexed.  Each iteration pops the queue head into the sorted list and
processes its neighbors.  (In Python the loop always terminates because a
node's in-degree counter passes through zero at most once; the chosen fuel
is proved sufficient where theorems need it.) -/
def kahnLoop (adj : String → List String) : Nat → List String → List String →
    (String → Int) → Option (List String)
  | _, [], sorted, _ => some sorted
  | 0, _ :: _, _, _ => Option.none
  | fuel + 1, nid :: queue, sorted, deg =>
    let (deg', queue') := processNeighbors (adj nid) deg queue
    kahnLoop adj fuel queue' (sorted ++ [nid]) deg'

/-- `topological_sort(nodes, edges)` (runner.py lines 97-130). -/
def topological_sort (nodes : List Node) (edges : List Edge) :
    Except PyErr (List String) :=
  let keys := dedupKeys (nodes.map (·.id))
  match tsBuild keys edges (fun _ => []) (fun _ => 0) with
  | .error e => .error e
  | .ok (adj, deg) =>
    let queue := keys.filter (fun k => deg k = 0)
    match kahnLoop adj (nodes.length + 1) queue [] deg with
    | Option.none => .error .fuelExhausted
    | some sorted =>
      if sorted.length ≠ nodes.length then
        .error (.valueError "Pipeline contains cycles - cannot execute")
      else .ok sorted

/-! ## runner.py — datasets and the transform operators -/

/-- A row of a dataset: one cell per column name. -/
abbrev Row := List (String × Cell)

/-- An in-memory dataset: ordered column names and ordered rows. -/
structure DataFrame where
  cols : List String
  rows : List Row
deriving DecidableEq, Repr

/-- The cell of row `r` in column `c` (rows are kept consistent with the
column list by every operator). -/
def rowGet (r : Row) (c : String) : Cell :=
  match r.find? (fun p => p.1 = c) with
  | some p => p.2
  | Option.none => Cell.null

/-- `str(x)` of a cell, as pandas renders values for string operations. -/
def cellStr : Cell → String
  | Cell.null => "nan"
  | Cell.str s => s
  | Cell.int n => toString n

/-- Substring test (`pat` occurs in `hay`).  Pandas'
`Series.str.contains` interprets the pattern as a regular expression by
default; the claims under study use only literal patterns, for which
regex matching and substring containment coincide. -/
def strContainsSub (hay pat : String) : Bool :=
  hay.data.tails.any (fun t => pat.data.isPrefixOf t)

/-- `df[column].str.contains(pat, na=False)` on one cell: non-string cells
(missing values, and non-string values in an object column) yield NaN,
which `na=False` maps to `False`. -/
def cellContains (pat : String) : Cell → Bool
  | Cell.str s => strContainsSub s pat
  | _ => false

/-- Elementwise `==` between a cell and a configured value (pandas
semantics: NaN compares unequal to everything; booleans equal their
integer values; mismatched types compare unequal). -/
def cellEqVal : Cell → Val → Bool
  | Cell.int n, Val.int m => n = m
  | Cell.int n, Val.bool b => n = (if b then 1 else 0)
  | Cell.str s, Val.str t => s = t
  | _, _ => false

/-- Elementwise ordering comparison between a cell and a configured value.
Pandas compares numbers with numbers and strings with strings; a missing
value compares `False`; comparing a string column with a number (or vice
versa) raises `TypeError` in an object column. -/
def cellCmpVal (fi : Int → Int → Bool) (fs : String → String → Bool) :
    Cell → Val → Except PyErr Bool
  | Cell.null, _ => .ok false
  | Cell.int n, Val.int m => .ok (fi n m)
  | Cell.int n, Val.bool b => .ok (fi n (if b then 1 else 0))
  | Cell.str s, Val.str t => .ok (fs s t)
  | _, _ => .error (.typeError "unorderable types in comparison")

/-- Severity of an execution record. -/
inductive LogLevel where
  | INFO
  | ERROR
deriving DecidableEq, Repr

/-- One row of the `run_logs` table, as written by `log_node_execution`
(runner.py lines 693-706): the per-invocation ExecutionRecord of the spec. -/
structure LogEntry where
  node_id : Option String
  level : LogLevel
  message : String
  rows_in : Option Nat := Option.none
  rows_out : Option Nat := Option.none
deriving DecidableEq, Repr

/-- The execution log: append-only sequence of records. -/
abbrev Log := List LogEntry

/-- `str(d.get(k))` — absent keys print as `None`. -/
def pyStrO (o : Option Val) : String := pyStr (o.getD Val.none)

/-- `repr` of a list of column names, as in
`f"Available columns: {list(df.columns)}"`. -/
def pyReprStrList (l : List String) : String :=
  "[" ++ ", ".intercalate (l.map (fun s => "\x27" ++ s ++ "\x27")) ++ "]"

/-- `repr` of a list of odd values (the `missing` lists in
`validate_transform_schema`). -/
def pyReprValList (l : List Val) : String :=
  "[" ++ ", ".intercalate (l.map (fun v =>
    match v with
    | .str s => "\x27" ++ s ++ "\x27"
    | v => pyStr v)) ++ "]"

/-- Python iteration over a configuration value (`for x in v`): lists
yield their elements, strings their characters, dicts their keys; other
values are not iterable. -/
def valIterElems : Val → Except PyErr (List Val)
  | .list xs => .ok xs
  | .str s => .ok (s.data.map (fun c => .str (String.mk [c])))
  | .dict m => .ok (m.map (fun p => .str p.1))
  | .none => .error (.typeError "\x27NoneType\x27 object is not iterable")
  | _ => .error (.typeError "object is not iterable")

/-- `v.keys()`: only dicts have `keys` — on a list this is the
`AttributeError` raised by `validate_transform_schema` for list-shaped
`aggregations`. -/
def valKeysE : Val → Except PyErr (List String)
  | .dict m => .ok (m.map (·.1))
  | .list _ => .error (.attributeError "\x27list\x27 object has no attribute \x27keys\x27")
  | .str _ => .error (.attributeError "\x27str\x27 object has no attribute \x27keys\x27")
  | _ => .error (.attributeError "object has no attribute \x27keys\x27")

/-- Membership `v in df.columns` for a configuration value (non-strings
are simply not members). -/
def valInCols (v : Val) (cols : List String) : Bool :=
  match v with
  | .str s => s ∈ cols
  | _ => false

/-- `isinstance(v, str)`. -/
def valIsStr : Val → Bool
  | .str _ => true
  | _ => false

/-- `validate_transform_schema(node, df)` (runner.py lines 21-94): the
pre-execution schema validation pass.  Raises `ValueError` when a column
referenced by the node's config is absent from the actual input's columns.
Note the AGGREGATE branch calls `.keys()` on `config.get('aggregations')`,
which is an `AttributeError` when the aggregations are the list-of-dicts
shape the executor itself expects. -/
def validate_transform_schema (node : Node) (df : DataFrame) : Except PyErr Unit := do
  let subtype ← match node.subtype with
    | some s => pure s
    | Option.none => Except.error (.keyError (some "subtype"))
  let config ← match node.config with
    | some c => pure c
    | Option.none => Except.error (.keyError (some "config"))
  let node_id := node.id
  match subtype with
  | "FILTER" =>
    let column := (dictGet config "column").getD Val.none
    if valTruthy column && !valInCols column df.cols then
      Except.error (.valueError ("Node \x27" ++ node_id ++ "\x27: FILTER requires column \x27"
        ++ pyStr column ++ "\x27 which doesn\x27t exist. Available columns: "
        ++ pyReprStrList df.cols))
    else pure ()
  | "SELECT" =>
    let columns := (dictGet config "columns").getD (.list [])
    let elems ← valIterElems columns
    let missing := elems.filter (fun c => !valInCols c df.cols)
    if !missing.isEmpty then
      Except.error (.valueError ("Node \x27" ++ node_id ++ "\x27: SELECT requires columns "
        ++ pyReprValList missing ++ " which don\x27t exist. Available columns: "
        ++ pyReprStrList df.cols))
    else pure ()
  | "RENAME" =>
    let mapping := (dictGet config "mapping").getD (.dict [])
    let ks ← valKeysE mapping
    let missing := ks.filter (fun c => c ∉ df.cols)
    if !missing.isEmpty then
      Except.error (.valueError ("Node \x27" ++ node_id ++ "\x27: RENAME references columns "
        ++ pyReprStrList missing ++ " which don\x27t exist. Available columns: "
        ++ pyReprStrList df.cols))
    else pure ()
  | "CAST" =>
    let column := (dictGet config "column").getD Val.none
    if valTruthy column && !valInCols column df.cols then
      Except.error (.valueError ("Node \x27" ++ node_id ++ "\x27: CAST requires column \x27"
        ++ pyStr column ++ "\x27 which doesn\x27t exist. Available columns: "
        ++ pyReprStrList df.cols))
    else pure ()
  | "AGGREGATE" =>
    let group_by0 := (dictGet config "group_by").getD (.list [])
    let group_by := if valIsStr group_by0 then Val.list [group_by0] else group_by0
    let elems ← valIterElems group_by
    let missing := elems.filter (fun c => !valInCols c df.cols)
    if !missing.isEmpty then
      Except.error (.valueError ("Node \x27" ++ node_id
        ++ "\x27: AGGREGATE references group_by columns " ++ pyReprValList missing
        ++ " which don\x27t exist. Available columns: " ++ pyReprStrList df.cols))
    else do
      let aggregations := (dictGet config "aggregations").getD (.dict [])
      let agg_cols ← valKeysE aggregations
      let missing_agg := agg_cols.filter (fun c => c ∉ df.cols)
      if !missing_agg.isEmpty then
        Except.error (.valueError ("Node \x27" ++ node_id
          ++ "\x27: AGGREGATE references aggregation columns " ++ pyReprStrList missing_agg
          ++ " which don\x27t exist. Available columns: " ++ pyReprStrList df.cols))
      else pure ()
  | "SORT" =>
    let columns0 := (dictGet config "columns").getD (.list [])
    let columns := if valIsStr columns0 then Val.list [columns0] else columns0
    let elems ← valIterElems columns
    let missing := elems.filter (fun c => !valInCols c df.cols)
    if !missing.isEmpty then
      Except.error (.valueError ("Node \x27" ++ node_id ++ "\x27: SORT requires columns "
        ++ pyReprValList missing ++ " which don\x27t exist. Available columns: "
        ++ pyReprStrList df.cols))
    else pure ()
  | _ => pure ()

/-- Replace (or, when absent, append) the cell of column `c` in a row —
the row-level effect of `df[column] = series`. -/
def rowSet (r : Row) (c : String) (x : Cell) : Row :=
  if r.any (fun p => p.1 = c) then r.map (fun p => if p.1 = c then (c, x) else p)
  else r ++ [(c, x)]

/-- `df[v]` for a configuration value used as a column key: a `KeyError`
unless the value is a string naming an existing column. -/
def dfColKey (df : DataFrame) (v : Option Val) : Except PyErr String :=
  match v with
  | some (.str c) => if c ∈ df.cols then .ok c else .error (.keyError (some c))
  | some Val.none => .error (.keyError Option.none)
  | Option.none => .error (.keyError Option.none)
  | some v => .error (.keyError (some (pyStr v)))

/-- `df[column] = df[column].map(f)` where `f` may raise per cell
(e.g. `astype(float)`). -/
def dfMapColE (df : DataFrame) (c : String) (f : Cell → Except PyErr Cell) :
    Except PyErr DataFrame := do
  let rows ← df.rows.mapM (fun r => do
    let x ← f (rowGet r c)
    pure (rowSet r c x))
  pure ⟨if c ∈ df.cols then df.cols else df.cols ++ [c], rows⟩

/-- Total version of `dfMapColE`. -/
def dfMapCol (df : DataFrame) (c : String) (f : Cell → Cell) : DataFrame :=
  ⟨if c ∈ df.cols then df.cols else df.cols ++ [c],
   df.rows.map (fun r => rowSet r c (f (rowGet r c)))⟩

/-- Assign a precomputed per-row series to column `c`
(`df[c] = series`). -/
def dfAssign (df : DataFrame) (c : String) (vals : List Cell) : DataFrame :=
  ⟨if c ∈ df.cols then df.cols else df.cols ++ [c],
   (df.rows.zip vals).map (fun p => rowSet p.1 c p.2)⟩

/-- Apply a string function under pandas' `.str` accessor: non-string
cells become missing. -/
def strAccessor (f : String → String) : Cell → Cell
  | Cell.str s => Cell.str (f s)
  | _ => Cell.null

/-- `str.title()`: uppercase every letter that follows a non-letter,
lowercase the rest. -/
def pyTitleGo : List Char → Bool → List Char
  | [], _ => []
  | c :: cs, prevAlpha =>
    (if c.isAlpha then (if prevAlpha then c.toLower else c.toUpper) else c)
      :: pyTitleGo cs c.isAlpha

/-- `str.title()`. -/
def pyTitle (s : String) : String := String.mk (pyTitleGo s.data false)

/-- Characters removed by the `parse_currency` regex `[$€£¥₹,]`. -/
def isCurrencyChar (c : Char) : Bool :=
  c ∈ [Char.ofNat 36, Char.ofNat 8364, Char.ofNat 163, Char.ofNat 165, Char.ofNat 8377, Char.ofNat 44]

/-- `float(s)` restricted to the integer-valued cell domain of the model:
integer literals (with surrounding whitespace) parse; anything else raises
`ValueError` exactly as an unparsable float literal does. -/
def pyFloatOfString (s : String) : Except PyErr Cell :=
  match s.trim.toInt? with
  | some n => .ok (Cell.int n)
  | Option.none =>
    .error (.valueError ("could not convert string to float: \x27" ++ s ++ "\x27"))

/-- Characters of the local part of the `validate_email` regex:
`[a-zA-Z0-9._%+-]`. -/
def emailLocalChar (c : Char) : Bool :=
  c.isAlphanum || c ∈ [Char.ofNat 46, Char.ofNat 95, Char.ofNat 37, Char.ofNat 43, Char.ofNat 45]

/-- Characters of the domain part: `[a-zA-Z0-9.-]`. -/
def emailDomainChar (c : Char) : Bool :=
  c.isAlphanum || c ∈ [Char.ofNat 46, Char.ofNat 45]

/-- `re.match(r'^[a-zA-Z0-9._%+-]+@[a-zA-Z0-9.-]+\.[a-zA-Z]{2,}$', s)`:
exactly one `@`; non-empty local part over its character class; the
domain, over its character class, ends in a dot followed by at least two
letters, with a non-empty prefix before that last dot. -/
def emailLike (s : String) : Bool :=
  match s.splitOn "@" with
  | [localPart, domain] =>
    !localPart.isEmpty && localPart.data.all emailLocalChar
      && domain.data.all emailDomainChar
      && (let parts := domain.splitOn "."
          parts.length ≥ 2
            && (match parts.getLast? with
                | some tld => tld.length ≥ 2 && !tld.isEmpty && tld.data.all Char.isAlpha
                | Option.none => false)
            && !("".intercalate (parts.dropLast)).isEmpty)
  | _ => false

/-- The FILTER row predicate for one operator/value pair (runner.py lines
253-268); an unknown operator raises `ValueError`. -/
def filterTest (op : String) (value : Val) (c : Cell) : Except PyErr Bool :=
  match op with
  | "==" => .ok (cellEqVal c value)
  | "!=" => .ok (!cellEqVal c value)
  | ">" => cellCmpVal (fun a b => decide (b < a)) (fun a b => decide (b < a)) c value
  | "<" => cellCmpVal (fun a b => decide (a < b)) (fun a b => decide (a < b)) c value
  | ">=" => cellCmpVal (fun a b => decide (b ≤ a)) (fun a b => decide (b < a || a = b)) c value
  | "<=" => cellCmpVal (fun a b => decide (a ≤ b)) (fun a b => decide (a < b || a = b)) c value
  | "contains" => .ok (cellContains (pyStr value) c)
  | _ => .error (.valueError ("Unknown operator: " ++ op))

/-- Keep the rows passing an effectful predicate (`df = df[mask]`). -/
def rowsFilterE (p : Row → Except PyErr Bool) : List Row → Except PyErr (List Row)
  | [] => .ok []
  | r :: rest => do
    let b ← p r
    let rest' ← rowsFilterE p rest
    pure (if b then r :: rest' else rest')

/-- Lexicographic comparison of character lists by code point — the
ordering Python and pandas use on strings. -/
def charsLt : List Char → List Char → Bool
  | [], [] => false
  | [], _ :: _ => true
  | _ :: _, [] => false
  | a :: as', b :: bs =>
    if a.toNat < b.toNat then true
    else if b.toNat < a.toNat then false
    else charsLt as' bs

/-- String comparison by code points. -/
def strLtB (s t : String) : Bool := charsLt s.data t.data

/-- A deterministic strict order on cells, used for group-key sorting
(`groupby(..., sort=True)`): numbers by value, strings lexicographically.
Mixed-type keys (which make pandas raise) are ordered by constructor so
the model stays total; no claim exercises them. -/
def cellLt : Cell → Cell → Bool
  | Cell.null, Cell.null => false
  | Cell.null, _ => true
  | _, Cell.null => false
  | Cell.int n, Cell.int m => n < m
  | Cell.str s, Cell.str t => strLtB s t
  | Cell.int _, Cell.str _ => true
  | Cell.str _, Cell.int _ => false

/-- Lexicographic order on group-key tuples. -/
def keyLt : List Cell → List Cell → Bool
  | [], _ => false
  | _ :: _, [] => false
  | a :: as', b :: bs => if a = b then keyLt as' bs else cellLt a b

/-- Insert into a sorted list of keys (ascending, duplicates dropped by
the caller). -/
def insertKeySorted (k : List Cell) : List (List Cell) → List (List Cell)
  | [] => [k]
  | k' :: rest => if keyLt k k' then k :: k' :: rest else k' :: insertKeySorted k rest

/-- Sorted list of the distinct non-null group keys of the rows
(`groupby` drops rows whose key contains a missing value and sorts group
keys ascending). -/
def sortedGroupKeys (gcols : List String) (rows : List Row) : List (List Cell) :=
  (rows.foldl (fun acc r =>
    let k := gcols.map (rowGet r)
    if k.any (· = Cell.null) then acc
    else if k ∈ acc then acc else acc ++ [k]) []).foldl
      (fun acc k => insertKeySorted k acc) []

/-- One named aggregation over the cells of a column (pandas skips
missing values).  `sum`/`min`/`max` are modelled on integer cells;
aggregating string cells with them (string concatenation in pandas) and
floating-point aggregations are outside the model. -/
def aggCellsFunc (func : String) (cells : List Cell) : Except PyErr Cell :=
  let ints := cells.filterMap (fun c => match c with | Cell.int n => some n | _ => Option.none)
  let hasStr := cells.any (fun c => match c with | Cell.str _ => true | _ => false)
  match func with
  | "count" => .ok (Cell.int (cells.countP (· ≠ Cell.null)))
  | "sum" =>
    if hasStr then .error (.unmodelled "sum over string cells")
    else .ok (Cell.int (ints.foldl (· + ·) 0))
  | "min" =>
    if hasStr then .error (.unmodelled "min over string cells")
    else match ints.min? with
      | some n => .ok (Cell.int n)
      | Option.none => .ok Cell.null
  | "max" =>
    if hasStr then .error (.unmodelled "max over string cells")
    else match ints.max? with
      | some n => .ok (Cell.int n)
      | Option.none => .ok Cell.null
  | f => .error (.unmodelled ("aggregation function " ++ f))

/-- `'_'.join(col).strip('_')` applied to an already-flat column name
(runner.py line 349): re-joins the CHARACTERS of the name with
underscores, then strips leading/trailing underscores. -/
def legacyFlatten (s : String) : String :=
  let joined := "_".intercalate (s.data.map (fun c => String.mk [c]))
  String.mk (((joined.data.dropWhile (· = Char.ofNat 95)).reverse.dropWhile
    (· = Char.ofNat 95)).reverse)

/-- `v[k]` subscripting of a configuration value (only dicts support
string subscripts). -/
def aggSubscript (v : Val) (k : String) : Except PyErr Val :=
  match v with
  | .dict m =>
    match dictGet m k with
    | some x => .ok x
    | Option.none => .error (.keyError (some k))
  | .str _ => .error (.typeError "string indices must be integers"            )
  | _ => .error (.typeError "object is not subscriptable")

/-- `v.get(k)` on a dict value (callers reach this only after a
successful subscript, hence on dicts). -/
def valGet (v : Val) (k : String) : Option Val :=
  match v with
  | .dict m => dictGet m k
  | _ => Option.none

/-- The `for agg in aggregations` loop of the AGGREGATE branch (runner.py
lines 318-331): accumulates `agg_dict` (insertion-ordered column →
function list) and `rename_map` ((column, function) → output name,
later entries overwriting). -/
def aggBuild (df : DataFrame) : List Val → List (String × List String) →
    List ((String × String) × String) →
    Except PyErr (List (String × List String) × List ((String × String) × String))
  | [], ad, rm => .ok (ad, rm)
  | agg :: rest, ad, rm => do
    let colV ← aggSubscript agg "column"
    let funcV ← aggSubscript agg "agg"
    let colS := pyStr colV
    let funcS := pyStr funcV
    let output_name :=
      if valTruthyO (valGet agg "as") then pyStrO (valGet agg "as")
      else if valTruthyO (valGet agg "output_column") then pyStrO (valGet agg "output_column")
      else colS ++ "_" ++ funcS
    if !valInCols colV df.cols then
      Except.error (.valueError ("Column \x27" ++ colS ++ "\x27 not found in dataframe"))
    else
      let ad' :=
        if ad.any (fun p => p.1 = colS) then
          ad.map (fun p => if p.1 = colS then (p.1, p.2 ++ [funcS]) else p)
        else ad ++ [(colS, [funcS])]
      let rm' :=
        if rm.any (fun p => p.1 = (colS, funcS)) then
          rm.map (fun p => if p.1 = (colS, funcS) then (p.1, output_name) else p)
        else rm ++ [((colS, funcS), output_name)]
      aggBuild df rest ad' rm'

/-- The group-by columns (`df.groupby(group_by)`): every element of the
key list must name an existing column. -/
def groupColsOf (df : DataFrame) (group_by : Val) : Except PyErr (List String) := do
  let elems ← valIterElems group_by
  elems.mapM (fun v =>
    match v with
    | .str s => if s ∈ df.cols then .ok s else .error (.keyError (some s))
    | v => Except.error (.keyError (some (pyStr v))))

/-- The aggregated cells of one group, in `agg_dict` order. -/
def aggGroupCells (grp : List Row) : List (String × List String) →
    Except PyErr (List Cell)
  | [] => .ok []
  | (col, funcs) :: rest => do
    let here ← funcs.mapM (fun f => aggCellsFunc f (grp.map (fun r => rowGet r col)))
    let there ← aggGroupCells grp rest
    pure (here ++ there)

/-- The flat output column names after the MultiIndex flattening of
runner.py lines 337-346 (group columns keep their names; aggregated
columns take their `rename_map` name or the `{column}_{func}` default) —
before line 349 re-mangles every name via `legacyFlatten`. -/
def aggFlatCols (gcols : List String) (ad : List (String × List String))
    (rm : List ((String × String) × String)) : List String :=
  gcols ++ ad.flatMap (fun p =>
    p.2.map (fun f =>
      match rm.find? (fun q => q.1 = (p.1, f)) with
      | some q => q.2
      | Option.none => p.1 ++ "_" ++ f))

/-- The AGGREGATE operator body (runner.py lines 304-351). -/
def aggExecute (df : DataFrame) (config : PyDict) : Except PyErr (DataFrame × String) := do
  let group_by := (dictGet config "group_by").getD (.list [])
  let aggregations := (dictGet config "aggregations").getD (.list [])
  if !valTruthy group_by then
    Except.error (.valueError "AGGREGATE requires at least one \x27group_by\x27 column")
  else if !valTruthy aggregations then
    Except.error (.valueError "AGGREGATE requires at least one aggregation")
  else do
    let aggElems ← valIterElems aggregations
    let (ad, rm) ← aggBuild df aggElems [] []
    let gcols ← groupColsOf df group_by
    let keys := sortedGroupKeys gcols df.rows
    let finalCols := (aggFlatCols gcols ad rm).map legacyFlatten
    let outRows ← keys.mapM (fun k => do
      let grp := df.rows.filter (fun r => gcols.map (rowGet r) = k)
      let aggCells ← aggGroupCells grp ad
      pure (finalCols.zip (k ++ aggCells)))
    pure (⟨finalCols, outRows⟩, "Aggregated by " ++ pyStr group_by)

/-- Stable ascending/descending comparison of two rows on a column list
(`sort_values`).  Missing values are ordered first by `cellLt`; pandas
instead always places them last, and raises on mixed-type columns —
neither case is exercised by any claim. -/
def rowSortLt (cols : List String) (r1 r2 : Row) : Bool :=
  keyLt (cols.map (rowGet r1)) (cols.map (rowGet r2))

/-- Stable insertion sort of rows. -/
def insertRowSorted (lt : Row → Row → Bool) (r : Row) : List Row → List Row
  | [] => [r]
  | r' :: rest => if lt r r' then r :: r' :: rest else r' :: insertRowSorted lt r rest

/-- `df.sort_values(by=cols, ascending=asc)` (stable). -/
def sortRows (lt : Row → Row → Bool) : List Row → List Row
  | [] => []
  | r :: rest => insertRowSorted lt r (sortRows lt rest)

/-- Forward- or backward-fill of one column. -/
def ffillCol (carry : Cell) : List Cell → List Cell
  | [] => []
  | Cell.null :: rest => carry :: ffillCol carry rest
  | c :: rest => c :: ffillCol c rest

/-- `fillna(value)`'s conversion of a configured value to a cell. -/
def valToCell : Val → Cell
  | .str s => Cell.str s
  | .int n => Cell.int n
  | .bool b => Cell.int (if b then 1 else 0)
  | _ => Cell.null

/-- Keep the first occurrence of each key (`drop_duplicates`). -/
def dedupRowsBy (key : Row → List Cell) : List Row → List (List Cell) → List Row
  | [], _ => []
  | r :: rest, seen =>
    let k := key r
    if k ∈ seen then dedupRowsBy key rest seen
    else r :: dedupRowsBy key rest (seen ++ [k])

/-- The FILTER operator names recognized by the dispatch chain
(runner.py lines 253-266). -/
def filterKnownOps : List String := ["==", "!=", ">", "<", ">=", "<=", "contains"]

/-- The `try`-block body of `execute_transform_node` (runner.py lines
240-587): dispatch on the node's `subtype`, returning the transformed
dataset and the log message.  Branches whose semantics rest on
floating-point or datetime arithmetic, and `DataFrame.merge`, end in
`.unmodelled`; every dispatch decision, configuration check and raised
error up to that point follows the source. -/
def transformBody (subtype : String) (config : PyDict) (df : DataFrame)
    (ctx : List (String × DataFrame)) : Except PyErr (DataFrame × String) :=
  match subtype with
  | "SELECT" => do
    let columns := (dictGet config "columns").getD (.list [])
    let elems ← valIterElems columns
    let cols ← elems.mapM (fun v =>
      match v with
      | .str s => if s ∈ df.cols then Except.ok s else Except.error (.keyError (some s))
      | v => Except.error (.keyError (some (pyStr v))))
    pure (⟨cols, df.rows.map (fun r => cols.map (fun c => (c, rowGet r c)))⟩,
      "Selected " ++ toString elems.length ++ " columns")
  | "FILTER" => do
    let columnV := dictGet config "column"
    let operatorV := (dictGet config "operator").getD .none
    let value := (dictGet config "value").getD .none
    match operatorV with
    | .str op =>
      if op ∈ filterKnownOps then do
        let col ← dfColKey df columnV
        let rows' ← rowsFilterE (fun r => filterTest op value (rowGet r col)) df.rows
        pure (⟨df.cols, rows'⟩,
          "Filtered by " ++ pyStrO columnV ++ " " ++ op ++ " " ++ pyStr value)
      else Except.error (.valueError ("Unknown operator: " ++ op))
    | v => Except.error (.valueError ("Unknown operator: " ++ pyStr v))
  | "RENAME" => do
    let mapping := (dictGet config "mapping").getD (.dict [])
    match mapping with
    | .dict m =>
      if m.all (fun p => valIsStr p.2) then
        let ren := fun c => match m.find? (fun p => p.1 = c) with
          | some p => pyStr p.2
          | Option.none => c
        pure (⟨df.cols.map ren, df.rows.map (fun r => r.map (fun p => (ren p.1, p.2)))⟩,
          "Renamed " ++ toString m.length ++ " columns")
      else Except.error (.unmodelled "rename to non-string column names")
    | _ => Except.error (.typeError "rename mapping must be a dict")
  | "CAST" => do
    let casts := (dictGet config "casts").getD (.list [])
    let elems ← valIterElems casts
    let df' ← elems.foldlM (fun acc cast_config => do
      let colV ← aggSubscript cast_config "column"
      let toV ← aggSubscript cast_config "to"
      let col ← dfColKey acc (some colV)
      match toV with
      | .str "int" =>
        dfMapColE acc col (fun c =>
          match c with
          | Cell.int n => .ok (Cell.int n)
          | Cell.str s =>
            .ok (match s.trim.toInt? with
              | some n => Cell.int n
              | Option.none => Cell.null)
          | Cell.null => .ok Cell.null)
      | .str "float" => Except.error (.unmodelled "floating-point cast")
      | .str "string" => .ok (dfMapCol acc col (fun c => Cell.str (cellStr c)))
      | .str "datetime" => Except.error (.unmodelled "datetime cast")
      | .str "bool" => Except.error (.unmodelled "boolean cast")
      | v => Except.error (.valueError ("Unknown cast type: " ++ pyStr v))) df
    pure (df', "Cast " ++ toString elems.length ++ " columns")
  | "AGGREGATE" => aggExecute df config
  | "JOIN" => do
    let join_type := (dictGet config "join_type").getD (.str "inner")
    let left_on := (dictGet config "left_on").getD .none
    let right_on := (dictGet config "right_on").getD .none
    if !valTruthy left_on then
      Except.error (.valueError "JOIN requires \x27left_on\x27 column")
    else if !valTruthy right_on then
      Except.error (.valueError "JOIN requires \x27right_on\x27 column")
    else do
      let right_node_id := (dictGet config "right_node_id").getD .none
      if !valTruthy right_node_id then
        Except.error (.valueError ("JOIN requires \x27right_node_id\x27 to specify the second data source. "
          ++ "This should be automatically set based on the incoming edges."))
      else
        match ctx.find? (fun p => p.1 = pyStr right_node_id) with
        | Option.none =>
          Except.error (.valueError ("JOIN references node \x27" ++ pyStr right_node_id
            ++ "\x27 which hasn\x27t been executed yet. "
            ++ "Ensure the join order is correct in your pipeline."))
        | some (_, right_df) =>
          if !valInCols left_on df.cols then
            Except.error (.valueError ("Left join column \x27" ++ pyStr left_on
              ++ "\x27 not found in left DataFrame. Available columns: "
              ++ pyReprStrList df.cols))
          else if !valInCols right_on right_df.cols then
            Except.error (.valueError ("Right join column \x27" ++ pyStr right_on
              ++ "\x27 not found in right DataFrame. Available columns: "
              ++ pyReprStrList right_df.cols))
          else Except.error (.unmodelled ("pandas DataFrame.merge " ++ pyStr join_type))
  | "SORT" => do
    let columns := (dictGet config "columns").getD (.list [])
    let ascending := valTruthyO (some ((dictGet config "ascending").getD (.bool true)))
    let elems ← valIterElems columns
    let cols ← elems.mapM (fun v =>
      match v with
      | .str s => if s ∈ df.cols then Except.ok s else Except.error (.keyError (some s))
      | v => Except.error (.keyError (some (pyStr v))))
    let lt := fun r1 r2 => if ascending then rowSortLt cols r1 r2 else rowSortLt cols r2 r1
    pure (⟨df.cols, sortRows lt df.rows⟩, "Sorted by " ++ pyStr columns)
  | "FILL_MISSING" => do
    let columnV := dictGet config "column"
    let strategy := (dictGet config "strategy").getD (.str "constant")
    let value := (dictGet config "value").getD (.int 0)
    let msg := fun _ : Unit =>
      "Filled missing in " ++ pyStrO columnV ++ " with " ++ pyStr strategy
    match strategy with
    | .str "constant" => do
      let col ← dfColKey df columnV
      pure (dfMapCol df col (fun c => if c = Cell.null then valToCell value else c), msg ())
    | .str "mean" => Except.error (.unmodelled "mean imputation")
    | .str "median" => Except.error (.unmodelled "median imputation")
    | .str "forward" => do
      let col ← dfColKey df columnV
      let vals := ffillCol Cell.null (df.rows.map (fun r => rowGet r col))
      pure (dfAssign df col vals, msg ())
    | .str "backward" => do
      let col ← dfColKey df columnV
      let vals := (ffillCol Cell.null (df.rows.map (fun r => rowGet r col)).reverse).reverse
      pure (dfAssign df col vals, msg ())
    | _ => pure (df, msg ())
  | "DROP_DUPLICATES" => do
    match dictGet config "columns" with
    | Option.none =>
      pure (⟨df.cols, dedupRowsBy (fun r => df.cols.map (rowGet r)) df.rows []⟩,
        "Dropped duplicates")
    | some Val.none =>
      pure (⟨df.cols, dedupRowsBy (fun r => df.cols.map (rowGet r)) df.rows []⟩,
        "Dropped duplicates")
    | some subsetV => do
      let elems ← valIterElems subsetV
      let cols ← elems.mapM (fun v =>
        match v with
        | .str s => if s ∈ df.cols then Except.ok s else Except.error (.keyError (some s))
        | v => Except.error (.keyError (some (pyStr v))))
      pure (⟨df.cols, dedupRowsBy (fun r => cols.map (rowGet r)) df.rows []⟩,
        "Dropped duplicates")
  | "NORMALIZE" => do
    let columnV := dictGet config "column"
    let method := (dictGet config "method").getD (.str "min_max")
    let msg := "Normalized " ++ pyStrO columnV ++ " using " ++ pyStr method
    match method with
    | .str "min_max" => do
      let _ ← dfColKey df columnV
      Except.error (.unmodelled "min-max scaling (floating point)")
    | .str "z_score" => do
      let _ ← dfColKey df columnV
      Except.error (.unmodelled "z-score scaling (floating point)")
    | .str "robust" => do
      let _ ← dfColKey df columnV
      Except.error (.unmodelled "robust scaling (floating point)")
    | _ => pure (df, msg)
  | "STRING_TRANSFORM" => do
    let columnV := dictGet config "column"
    let operation := (dictGet config "operation").getD .none
    let msg := "Applied " ++ pyStr operation ++ " to " ++ pyStrO columnV
    match operation with
    | .str "trim" => do
      let col ← dfColKey df columnV
      pure (dfMapCol df col (strAccessor String.trim), msg)
    | .str "lowercase" => do
      let col ← dfColKey df columnV
      pure (dfMapCol df col (strAccessor String.toLower), msg)
    | .str "uppercase" => do
      let col ← dfColKey df columnV
      pure (dfMapCol df col (strAccessor String.toUpper), msg)
    | .str "title" => do
      let col ← dfColKey df columnV
      pure (dfMapCol df col (strAccessor pyTitle), msg)
    | .str "remove_spaces" => do
      let col ← dfColKey df columnV
      pure (dfMapCol df col (strAccessor (fun s =>
        String.mk (s.data.filter (fun c => c ≠ Char.ofNat 32)))), msg)
    | .str "clean_phone" => do
      let col ← dfColKey df columnV
      pure (dfMapCol df col (strAccessor (fun s =>
        String.mk (s.data.filter Char.isDigit))), msg)
    | .str "parse_currency" => do
      let col ← dfColKey df columnV
      let df' ← dfMapColE df col (fun c =>
        match c with
        | Cell.str s => pyFloatOfString (String.mk (s.data.filter (fun ch => !isCurrencyChar ch)))
        | _ => .ok Cell.null)
      pure (df', msg)
    | .str "validate_email" => do
      let col ← dfColKey df columnV
      pure (dfMapCol df col (fun c =>
        match c with
        | Cell.null => Cell.null
        | c => if emailLike (cellStr c) then c else Cell.null), msg)
    | _ => pure (df, msg)
  | "FILTER_OUTLIERS" => do
    let columnV := dictGet config "column"
    let method := (dictGet config "method").getD (.str "std")
    let msg := "Filtered outliers in " ++ pyStrO columnV ++ " using " ++ pyStr method
    match method with
    | .str "std" => do
      let _ ← dfColKey df columnV
      Except.error (.unmodelled "standard-deviation outlier bounds (floating point)")
    | .str "iqr" => do
      let _ ← dfColKey df columnV
      Except.error (.unmodelled "IQR outlier bounds (floating point)")
    | .str "percentile" => do
      let _ ← dfColKey df columnV
      Except.error (.unmodelled "percentile outlier bounds (floating point)")
    | _ => pure (df, msg)
  | "SPLIT_COLUMN" => do
    let columnV := dictGet config "column"
    let delimiter := (dictGet config "delimiter").getD (.str ",")
    let new_columns := (dictGet config "new_columns").getD (.list [])
    let col ← dfColKey df columnV
    match delimiter with
    | .str d => do
      let elems ← valIterElems new_columns
      let names ← elems.mapM (fun v =>
        match v with
        | .str s => Except.ok s
        | _ => Except.error (.unmodelled "non-string split column name"))
      let partsOf := fun (r : Row) =>
        match rowGet r col with
        | Cell.str s => some (s.splitOn d)
        | _ => Option.none
      let width := df.rows.foldl (fun acc r =>
        max acc (match partsOf r with | some ps => ps.length | Option.none => 0)) 0
      let df' := (List.range names.length).foldl (fun acc i =>
        if i < width then
          dfAssign acc (names.getD i "") (df.rows.map (fun r =>
            match partsOf r with
            | some ps => match ps[i]? with
              | some part => Cell.str part
              | Option.none => Cell.null
            | Option.none => Cell.null))
        else acc) df
      pure (df', "Split " ++ pyStrO columnV ++ " into " ++ toString elems.length ++ " columns")
    | _ => Except.error (.typeError "split delimiter must be a string")
  | "MERGE_COLUMNS" => do
    let columns := (dictGet config "columns").getD (.list [])
    let new_column := (dictGet config "new_column").getD .none
    let separator := (dictGet config "separator").getD (.str " ")
    let elems ← valIterElems columns
    let cols ← elems.mapM (fun v =>
      match v with
      | .str s => if s ∈ df.cols then Except.ok s else Except.error (.keyError (some s))
      | v => Except.error (.keyError (some (pyStr v))))
    match new_column, separator with
    | .str name, .str sep =>
      let vals := df.rows.map (fun r =>
        Cell.str (sep.intercalate (cols.map (fun c => cellStr (rowGet r c)))))
      pure (dfAssign df name vals,
        "Merged " ++ toString elems.length ++ " columns into " ++ name)
    | _, _ => Except.error (.unmodelled "non-string merge target or separator")
  | "EXTRACT_DATE_PARTS" => do
    let _ ← dfColKey df (dictGet config "column")
    Except.error (.unmodelled "datetime decomposition")
  | "BINNING" => do
    let _ ← dfColKey df (dictGet config "column")
    Except.error (.unmodelled "pd.cut binning (floating point)")
  | _ => Except.error (.valueError ("Unknown transform subtype: " ++ subtype))

/-- `execute_transform_node(node, input_df, db, run_id, results_context)`
(runner.py lines 216-600).  The pre-execution schema validation (line 236)
runs OUTSIDE the `try`, so its exceptions propagate without the
"Transform failed" record; exceptions from the operator body are logged
as ERROR with `rows_in` and re-raised; success logs INFO with both row
counts. -/
def execute_transform_node (node : Node) (input_df : DataFrame) (runlog : Log)
    (results_context : List (String × DataFrame)) :
    Except PyErr DataFrame × Log :=
  match node.subtype with
  | Option.none => (.error (.keyError (some "subtype")), runlog)
  | some subtype =>
    match node.config with
    | Option.none => (.error (.keyError (some "config")), runlog)
    | some config =>
      let rows_in := input_df.rows.length
      match validate_transform_schema node input_df with
      | .error e => (.error e, runlog)
      | .ok _ =>
        match transformBody subtype config input_df results_context with
        | .error e =>
          (.error e, runlog ++ [⟨some node.id, .ERROR, "Transform failed: " ++ pyErrStr e,
            some rows_in, Option.none⟩])
        | .ok (df, message) =>
          (.ok df, runlog ++ [⟨some node.id, .INFO, message,
            some rows_in, some df.rows.length⟩])

/-! ## runner.py — executor -/

/-- The external tabular-I/O collaborator (spec §6): the engine only
selects which provider call to make and passes the node's config along. -/
structure Provider where
  loadData : String → PyDict → Except PyErr DataFrame
  writeData : DataFrame → String → Except PyErr String

/-- `d[k] = v` on a Python dict. -/
def dictSet (d : PyDict) (k : String) (v : Val) : PyDict :=
  if d.any (fun p => p.1 = k) then d.map (fun p => if p.1 = k then (k, v) else p)
  else d ++ [(k, v)]

/-- `execute_source_node(node, db, run_id)` (runner.py lines 133-213):
dispatch on the source `subtype`, delegate the actual read to the I/O
provider, and log an INFO record with `rows_out` on success. -/
def execute_source_node (prov : Provider) (node : Node) (runlog : Log) :
    Except PyErr DataFrame × Log :=
  match node.subtype with
  | Option.none => (.error (.keyError (some "subtype")), runlog)
  | some subtype =>
    match node.config with
    | Option.none => (.error (.keyError (some "config")), runlog)
    | some config =>
      let res : Except PyErr DataFrame :=
        match subtype with
        | "CSV_SOURCE" => prov.loadData subtype config
        | "EXCEL_SOURCE" => prov.loadData subtype config
        | "JSON_SOURCE" => prov.loadData subtype config
        | "DB_SOURCE" =>
          if !valTruthyO (dictGet config "connection_string") then
            .error (.valueError "DB_SOURCE requires \x27connection_string\x27")
          else if valTruthyO (dictGet config "query") then prov.loadData subtype config
          else if valTruthyO (dictGet config "table_name") then prov.loadData subtype config
          else .error (.valueError "DB_SOURCE requires either \x27table_name\x27 or \x27query\x27")
        | "API_SOURCE" =>
          if !valTruthyO (dictGet config "endpoint") then
            .error (.valueError "API_SOURCE requires \x27endpoint\x27")
          else prov.loadData subtype config
        | _ => .error (.valueError ("Unknown source subtype: " ++ subtype))
      match res with
      | .error e => (.error e, runlog)
      | .ok df =>
        (.ok df, runlog ++ [⟨some node.id, .INFO,
          "Loaded " ++ toString df.rows.length ++ " rows",
          Option.none, some df.rows.length⟩])

/-- `execute_load_node(node, input_df, db, run_id, pipeline_name)`
(runner.py lines 603-690): dispatch on the sink `subtype`, delegate the
write to the I/O provider, log an INFO record with `rows_in`. -/
def execute_load_node (prov : Provider) (node : Node) (input_df : DataFrame)
    (runlog : Log) (run_id : Nat) (pipeline_name : Option String) :
    Except PyErr String × Log :=
  match node.subtype with
  | Option.none => (.error (.keyError (some "subtype")), runlog)
  | some subtype =>
    match node.config with
    | Option.none => (.error (.keyError (some "config")), runlog)
    | some config =>
      let rows_in := input_df.rows.length
      let default_basename :=
        match pipeline_name with
        | some s => if s ≠ "" then s else "output_" ++ toString run_id
        | Option.none => "output_" ++ toString run_id
      let res : Except PyErr (String × String) :=
        match subtype with
        | "CSV_LOAD" =>
          let path := if valTruthyO (dictGet config "output_path")
            then pyStrO (dictGet config "output_path") else default_basename ++ ".csv"
          match prov.writeData input_df path with
          | .ok p => .ok (p, "Wrote " ++ toString rows_in ++ " rows to CSV")
          | .error e => .error e
        | "EXCEL_LOAD" =>
          if !valTruthyO (dictGet config "output_path") then
            .error (.valueError "EXCEL_LOAD requires \x27output_path\x27 to be specified")
          else
            match prov.writeData input_df (pyStrO (dictGet config "output_path")) with
            | .ok p => .ok (p, "Wrote " ++ toString rows_in ++ " rows to Excel")
            | .error e => .error e
        | "JSON_LOAD" =>
          let path := if valTruthyO (dictGet config "output_path")
            then pyStrO (dictGet config "output_path") else default_basename ++ ".json"
          match prov.writeData input_df path with
          | .ok p => .ok (p, "Wrote " ++ toString rows_in ++ " rows to JSON")
          | .error e => .error e
        | "DB_LOAD" =>
          if !valTruthyO (dictGet config "connection_string") then
            .error (.valueError "DB_LOAD requires \x27connection_string\x27")
          else if !valTruthyO (dictGet config "table_name") then
            .error (.valueError "DB_LOAD requires \x27table_name\x27")
          else
            let table := pyStrO (dictGet config "table_name")
            match prov.writeData input_df ("database://" ++ table) with
            | .ok _ => .ok ("database://" ++ table,
                "Wrote " ++ toString rows_in ++ " rows to database table \x27" ++ table ++ "\x27")
            | .error e => .error e
        | "API_LOAD" =>
          if !valTruthyO (dictGet config "endpoint") then
            .error (.valueError "API_LOAD requires \x27endpoint\x27")
          else
            let endpoint := pyStrO (dictGet config "endpoint")
            match prov.writeData input_df ("api://" ++ endpoint) with
            | .ok _ => .ok ("api://" ++ endpoint,
                "Sent " ++ toString rows_in ++ " rows to API endpoint")
            | .error e => .error e
        | _ => .error (.valueError ("Unknown load subtype: " ++ subtype))
      match res with
      | .error e => (.error e, runlog)
      | .ok (path, message) =>
        (.ok path, runlog ++ [⟨some node.id, .INFO, message, some rows_in, Option.none⟩])

/-- The executor's per-run mutable state: the `results` cache, the log,
and the accumulated sink output paths. -/
structure RunSt where
  results : List (String × DataFrame)
  runlog : Log
  output_paths : List String
deriving DecidableEq, Repr

/-- `results[node_id] = df`. -/
def rSet (rs : List (String × DataFrame)) (k : String) (df : DataFrame) :
    List (String × DataFrame) :=
  if rs.any (fun p => p.1 = k) then rs.map (fun p => if p.1 = k then (k, df) else p)
  else rs ++ [(k, df)]

/-- `results[from_node]` lookup. -/
def rGet (rs : List (String × DataFrame)) (k : String) : Option DataFrame :=
  match rs.find? (fun p => p.1 = k) with
  | some p => some p.2
  | Option.none => Option.none

/-- The `try`-block body of `execute_pipeline`'s per-node loop
(runner.py lines 745-789): dispatch on `node['type']`, resolving a
TRANSFORM's or LOAD's primary input as `results[<first inbound edge's
resolved from-endpoint>]` — an unguarded dict lookup that raises a bare
`KeyError` when the predecessor produced no dataset.  Errors carry the
log as mutated so far. -/
def execNodeBody (prov : Provider) (run_id : Nat) (edges : List Edge)
    (pname : Option String) (st : RunSt) (node : Node) (node_id node_type : String) :
    Except (PyErr × Log) RunSt :=
  match node_type with
  | "SOURCE" =>
    match execute_source_node prov node st.runlog with
    | (.ok df, lg) => .ok { st with results := rSet st.results node_id df, runlog := lg }
    | (.error e, lg) => .error (e, lg)
  | "TRANSFORM" =>
    match edges.filter (fun e => vResolveTo e = some node_id) with
    | [] => .error (.valueError ("Transform node " ++ node_id ++ " has no input"), st.runlog)
    | e0 :: restIncoming =>
      let node' :=
        if node.subtype = some "JOIN" && decide (restIncoming.length ≥ 1) then
          let right : Val :=
            match restIncoming.head? with
            | some e1 =>
              match vResolveFrom e1 with
              | some s => .str s
              | Option.none => .none
            | Option.none => .none
          { node with config := some (dictSet (node.config.getD []) "right_node_id" right) }
        else node
      match vResolveFrom e0 with
      | Option.none => .error (.keyError Option.none, st.runlog)
      | some u =>
        match rGet st.results u with
        | Option.none => .error (.keyError (some u), st.runlog)
        | some input_df =>
          match execute_transform_node node' input_df st.runlog st.results with
          | (.ok df, lg) => .ok { st with results := rSet st.results node_id df, runlog := lg }
          | (.error e, lg) => .error (e, lg)
  | "LOAD" =>
    match edges.filter (fun e => vResolveTo e = some node_id) with
    | [] => .error (.valueError ("Load node " ++ node_id ++ " has no input"), st.runlog)
    | e0 :: _ =>
      match vResolveFrom e0 with
      | Option.none => .error (.keyError Option.none, st.runlog)
      | some u =>
        match rGet st.results u with
        | Option.none => .error (.keyError (some u), st.runlog)
        | some input_df =>
          match execute_load_node prov node input_df st.runlog run_id pname with
          | (.ok path, lg) => .ok { st with runlog := lg, output_paths := st.output_paths ++ [path] }
          | (.error e, lg) => .error (e, lg)
  | _ => .error (.valueError ("Unknown node type: " ++ node_type), st.runlog)

/-- The per-node boundary of `execute_pipeline` (lines 791-796): any
exception is logged as a node-level ERROR record and re-raised. -/
def execNodeTry (prov : Provider) (run_id : Nat) (edges : List Edge)
    (pname : Option String) (st : RunSt) (node : Node) (node_id node_type : String) :
    RunSt × Option PyErr :=
  match execNodeBody prov run_id edges pname st node node_id node_type with
  | .ok st' => (st', Option.none)
  | .error (e, lg) =>
    ({ st with runlog := lg ++ [⟨some node_id, .ERROR,
        "Node execution failed: " ++ pyErrStr e, Option.none, Option.none⟩] },
     some e)

/-- One iteration of the `for node_id in execution_order` loop (lines
741-796).  The `node_map[node_id]` and `node['type']` lookups sit OUTSIDE
the `try`, so their `KeyError`s propagate unlogged. -/
def execNode (prov : Provider) (run_id : Nat) (edges : List Edge)
    (nodeMap : String → Option Node) (pname : Option String) (st : RunSt)
    (node_id : String) : RunSt × Option PyErr :=
  match nodeMap node_id with
  | some node =>
    match node.typ with
    | some t => execNodeTry prov run_id edges pname st node node_id t
    | Option.none => (st, some (.keyError (some "type")))
  | Option.none => (st, some (.keyError (some node_id)))

/-- The node loop of `execute_pipeline`: abort on the first re-raised
exception. -/
def execLoop (prov : Provider) (run_id : Nat) (edges : List Edge)
    (nodeMap : String → Option Node) (pname : Option String) :
    List String → RunSt → RunSt × Option PyErr
  | [], st => (st, Option.none)
  | nid :: rest, st =>
    match execNode prov run_id edges nodeMap pname st nid with
    | (st', Option.none) => execLoop prov run_id edges nodeMap pname rest st'
    | (st', some e) => (st', some e)

/-- `{node['id']: node for node in nodes}`: for duplicate ids the last
occurrence wins. -/
def nodeMapOf (nodes : List Node) (nid : String) : Option Node :=
  nodes.reverse.find? (fun n => n.id = nid)

/-- `execute_pipeline(pipeline_json, run_id, db, pipeline_name)`
(runner.py lines 709-799).  Returns the final state, the escaping
exception if any, and the returned primary output path.  Only a
`ValueError` from `topological_sort` is caught and logged as the
pipeline-level "validation failed" record (line 731 catches `ValueError`
alone); a `KeyError` from the sort propagates unlogged. -/
def execute_pipeline (prov : Provider) (p : Pipeline) (run_id : Nat)
    (pipeline_name : Option String) : RunSt × Option PyErr × Option String :=
  let nodes := p.nodes
  let edges := p.edges
  let nodeMap := nodeMapOf nodes
  let st0 : RunSt := ⟨[], [], []⟩
  match topological_sort nodes edges with
  | .error (.valueError m) =>
    ({ st0 with runlog := [⟨Option.none, .ERROR, "Pipeline validation failed: " ++ m,
        Option.none, Option.none⟩] },
     some (.valueError m), Option.none)
  | .error e => (st0, some e, Option.none)
  | .ok order =>
    match execLoop prov run_id edges nodeMap pipeline_name order st0 with
    | (st, some e) => (st, some e, Option.none)
    | (st, Option.none) => (st, Option.none, st.output_paths.getLast?)

/-! ## Concrete pipelines used as claim evidence -/

/-- A one-node pipeline with an edge whose `from` endpoint names a
node id absent from the node list. -/
def c1Pipeline : Pipeline :=
  ⟨[⟨"a", some "SOURCE", Option.none, Option.none⟩],
   [{ fromKey := some "ghost", toKey := some "a" }]⟩

/-- A graph with the directed cycle `a → b → a` plus a feeder node `c`
with the edge `c → a` into the cycle. -/
def c2Nodes : List Node :=
  [⟨"a", some "SOURCE", Option.none, Option.none⟩,
   ⟨"b", some "TRANSFORM", Option.none, Option.none⟩,
   ⟨"c", some "SOURCE", Option.none, Option.none⟩]

def c2Edges : List Edge :=
  [{ fromKey := some "a", toKey := some "b" },
   { fromKey := some "b", toKey := some "a" },
   { fromKey := some "c", toKey := some "a" }]

/-- Two disjoint directed cycles `a → b → a` and `d → e → d`, plus a
feeder node `c` with the edge `c → a`. -/
def c7Nodes : List Node :=
  ["a", "b", "c", "d", "e"].map (fun i => ⟨i, some "TRANSFORM", Option.none, Option.none⟩)

def c7Edges : List Edge :=
  [{ fromKey := some "a", toKey := some "b" },
   { fromKey := some "b", toKey := some "a" },
   { fromKey := some "c", toKey := some "a" },
   { fromKey := some "d", toKey := some "e" },
   { fromKey := some "e", toKey := some "d" }]

/-- `SOURCE → LOAD` expressed with the `source`/`target` edge aliases. -/
def c4Nodes : List Node :=
  [⟨"s", some "SOURCE", Option.none, Option.none⟩,
   ⟨"l", some "LOAD", Option.none, Option.none⟩]

def c4Edges : List Edge :=
  [{ sourceKey := some "s", targetKey := some "l" }]

/-- An I/O provider that serves a fixed one-row dataset and accepts
every write. -/
def stubProvider : Provider :=
  ⟨fun _ _ => .ok ⟨["c"], [[("c", .int 1)]]⟩, fun _ p => .ok p⟩

def csvSourceNode : Node :=
  ⟨"s", some "SOURCE", some "CSV_SOURCE", some [("file_path", .str "in.csv")]⟩

def csvLoadNode : Node :=
  ⟨"l", some "LOAD", some "CSV_LOAD", some [("output_path", .str "out.csv")]⟩

def filterTNode : Node :=
  ⟨"t", some "TRANSFORM", some "FILTER",
   some [("column", .str "c"), ("operator", .str "=="), ("value", .int 1)]⟩

/-- `SOURCE s → LOAD l → TRANSFORM t`: the transform's only inbound edge
references the LOAD node, which stores nothing in `results`. -/
def c5Pipeline : Pipeline :=
  ⟨[csvSourceNode, csvLoadNode, filterTNode],
   [{ fromKey := some "s", toKey := some "l" },
    { fromKey := some "l", toKey := some "t" }]⟩

/-- The same pipeline with the transform left without any inbound edge. -/
def c5PipelineNoInput : Pipeline :=
  ⟨[csvSourceNode, csvLoadNode, filterTNode],
   [{ fromKey := some "s", toKey := some "l" }]⟩

/-- The AGGREGATE node of claim C6: `group_by=["g"]`, one aggregation
`{column: "x", agg: "sum", as: "x_sum"}`. -/
def c6AggNode : Node :=
  ⟨"agg1", some "TRANSFORM", some "AGGREGATE",
   some [("group_by", .list [.str "g"]),
         ("aggregations", .list [.dict [("column", .str "x"), ("agg", .str "sum"),
                                        ("as", .str "x_sum")]])]⟩

/-- The input rows of claim C6: `[{g:"a",x:1},{g:"a",x:2},{g:"b",x:5}]`. -/
def c6Df : DataFrame :=
  ⟨["g", "x"],
   [[("g", .str "a"), ("x", .int 1)],
    [("g", .str "a"), ("x", .int 2)],
    [("g", .str "b"), ("x", .int 5)]]⟩

/-- A STRING_TRANSFORM node whose `operation` names no supported
operation. -/
def c9Node : Node :=
  ⟨"st1", some "TRANSFORM", some "STRING_TRANSFORM",
   some [("column", .str "c"), ("operation", .str "reverse")]⟩

def c9Df : DataFrame := ⟨["c"], [[("c", .str "hi")]]⟩

/-! ## Claim theorems (concrete refutations) -/

/-- C1 (code bug): `validate` does NOT return a ValidationResult on every
malformed input: on a graph whose edge's `from` endpoint names a
non-existent node id, `detect_cycles` performs
`adjacency[from_node].append(...)` on a dict keyed only by real node ids
and the whole call raises `KeyError` instead of reporting the problem as
an error string (which `validate_edges`, run later, would have done). -/
theorem c1_validate_pipeline_raises_keyerror :
    validate_pipeline c1Pipeline = Except.error (PyErr.keyError (some "ghost")) := by
  rfl

/-- C2 (code bug): on the cyclic graph `a → b → a` with feeder edge
`c → a`, `topological_sort` does raise the CycleError-equivalent
`ValueError`, but `validate` does not return `is_valid=false` with a
cycle message: the DFS reports the cycle once, returns early without
clearing `rec_stack`, and the DFS started at `c` then calls
`path.index('a')` on the path `['c']`, raising `ValueError` out of
`validate`. -/
theorem c2_validate_crashes_on_cyclic_graph :
    validate_pipeline ⟨c2Nodes, c2Edges⟩
        = Except.error (PyErr.valueError "\x27a\x27 is not in list")
      ∧ topological_sort c2Nodes c2Edges
        = Except.error (PyErr.valueError "Pipeline contains cycles - cannot execute") := by
  exact ⟨rfl, rfl⟩

/-- C7 (code bug): on a graph with two disjoint cycles (`a → b → a` and
`d → e → d`) plus the feeder edge `c → a`, the cycle check does not
produce one error string per disjoint cycle: after the first cycle is
reported, the stale `rec_stack` makes the DFS rooted at `c` raise
`ValueError` from `path.index`, so the second cycle is never reported and
`detect_cycles` crashes. -/
theorem c7_detect_cycles_crashes_on_disjoint_cycles :
    detect_cycles c7Nodes c7Edges
      = Except.error (PyErr.valueError "\x27a\x27 is not in list") := by
  rfl

/-- C4 (code bug): the `source`/`target` edge aliases are NOT accepted
with identical behavior across the engine's operations: validation
accepts the graph (no errors), while `topological_sort` consults only
`from`/`from_node` and `to`/`to_node`, resolves the endpoints to `None`,
and raises `KeyError` on `adjacency[None]`. -/
theorem c4_alias_behavior_differs :
    validate_pipeline ⟨c4Nodes, c4Edges⟩ = Except.ok (true, [])
      ∧ topological_sort c4Nodes c4Edges
        = Except.error (PyErr.keyError Option.none) := by
  exact ⟨rfl, rfl⟩

/-- C5 (code bug): the executor raises the checked
`ValueError("Transform node t has no input")` when a TRANSFORM node has
no inbound edge, but there is no defensive check for a predecessor
missing from `results`: when the first inbound edge references a LOAD
node (which stores no dataset), the bare dict lookup `results[from_node]`
raises `KeyError('l')` instead of a NoInputError-style checked error —
and the case is reachable, contrary to the claim's "cannot happen under a
correct topological order". -/
theorem c5_missing_predecessor_raises_bare_keyerror :
    (execute_pipeline stubProvider c5Pipeline 7 Option.none).2.1
        = some (PyErr.keyError (some "l"))
      ∧ (execute_pipeline stubProvider c5PipelineNoInput 7 Option.none).2.1
        = some (PyErr.valueError "Transform node t has no input") := by
  exact ⟨rfl, rfl⟩

/-- C6 (code bug): executing the claimed AGGREGATE produces no rows at
all: the pre-execution schema validation calls `.keys()` on the
list-shaped `aggregations` config and raises
`AttributeError("'list' object has no attribute 'keys'")` before the
operator body runs.  Moreover, even the operator body itself (second
conjunct, invoked directly) would name the output column
`x___s_u_m` — line 349 re-joins the characters of the already-flattened
name `x_sum` with underscores — not `x_sum`; the aggregated values 3 and
5 are the claimed ones. -/
theorem c6_aggregate_crashes_in_schema_validation :
    execute_transform_node c6AggNode c6Df [] []
        = (Except.error (PyErr.attributeError
            "\x27list\x27 object has no attribute \x27keys\x27"), [])
      ∧ aggExecute c6Df (c6AggNode.config.getD [])
        = Except.ok (⟨["g", "x___s_u_m"],
            [[("g", .str "a"), ("x___s_u_m", .int 3)],
             [("g", .str "b"), ("x___s_u_m", .int 5)]]⟩, "Aggregated by [...]") := by
  exact ⟨rfl, rfl⟩

/-- C9 (code bug): a STRING_TRANSFORM whose `operation` is unsupported
does not raise a ConfigError: the `if/elif` chain has no `else`, so the
node completes successfully as a no-op, returning the input unchanged and
logging an INFO record "Applied reverse to c". -/
theorem c9_unknown_string_operation_is_silent_noop :
    execute_transform_node c9Node c9Df [] []
      = (Except.ok c9Df,
         [⟨some "st1", .INFO, "Applied reverse to c", some 1, some 1⟩]) := by
  rfl

def mkFilterContainsNode (nid col : String) (value : Val) : Node :=
  ⟨nid, some "TRANSFORM", some "FILTER",
   some [("column", .str col), ("operator", .str "contains"), ("value", value)]⟩

theorem rowsFilterE_pure (q : Row → Bool) :
    ∀ rows : List Row, rowsFilterE (fun r => .ok (q r)) rows = .ok (rows.filter q)
  | [] => rfl
  | r :: rest => by
    simp only [rowsFilterE, rowsFilterE_pure q rest, List.filter_cons]
    cases h : q r <;> simp [bind, Except.bind, pure, Except.pure, h]

/-- C10 (confirmed): executing a FILTER transform with operator
`contains` succeeds on any dataset whose filter column exists, returning
exactly the rows whose cell in that column is a string containing
`str(value)`; a row whose filter column holds a missing value never
matches (`na=False`), so it is dropped from the output rather than kept
or raising an error. -/
theorem c10_filter_contains_drops_nulls (nid col : String) (value : Val) (df : DataFrame) (lg : Log)
    (ctx : List (String × DataFrame)) (hc : col ∈ df.cols) :
    execute_transform_node (mkFilterContainsNode nid col value) df lg ctx
      = (Except.ok ⟨df.cols, df.rows.filter (fun r => cellContains (pyStr value) (rowGet r col))⟩,
         lg ++ [⟨some nid, .INFO,
           "Filtered by " ++ col ++ " " ++ "contains" ++ " " ++ pyStr value,
           some df.rows.length,
           some (df.rows.filter (fun r => cellContains (pyStr value) (rowGet r col))).length⟩])
      ∧ (∀ pat, cellContains pat Cell.null = false) := by
  refine ⟨?_, fun pat => rfl⟩
  have hfind : dictGet [("column", Val.str col), ("operator", Val.str "contains"),
      ("value", value)] "column" = some (Val.str col) := rfl
  have hfind2 : dictGet [("column", Val.str col), ("operator", Val.str "contains"),
      ("value", value)] "operator" = some (Val.str "contains") := rfl
  have hfind3 : dictGet [("column", Val.str col), ("operator", Val.str "contains"),
      ("value", value)] "value" = some value := rfl
  have hvs : validate_transform_schema (mkFilterContainsNode nid col value) df = .ok () := by
    simp +decide [validate_transform_schema, mkFilterContainsNode, bind, Except.bind,
      hfind, valInCols, hc, valTruthy, pure, Except.pure]
  have hkey : dfColKey df (some (.str col)) = Except.ok col := by simp [dfColKey, hc]
  have hbody : transformBody "FILTER"
      [("column", .str col), ("operator", .str "contains"), ("value", value)] df ctx
      = .ok (⟨df.cols, df.rows.filter (fun r => cellContains (pyStr value) (rowGet r col))⟩,
        "Filtered by " ++ col ++ " " ++ "contains" ++ " " ++ pyStr value) := by
    simp +decide [transformBody, hfind, hfind2, hfind3, filterKnownOps, hkey, filterTest,
      bind, Except.bind, pure, Except.pure, rowsFilterE_pure, pyStrO, pyStr]
  dsimp only [execute_transform_node, mkFilterContainsNode] at hvs ⊢
  rw [hvs, hbody]

theorem execute_source_node_error_log {prov : Provider} {node : Node} {lg : Log}
    {e : PyErr} {lg' : Log}
    (h : execute_source_node prov node lg = (.error e, lg')) : lg' = lg := by
  unfold execute_source_node at h
  repeat' (first | split at h | dsimp only at h)
  all_goals simp_all

theorem execute_load_node_error_log {prov : Provider} {node : Node} {df : DataFrame}
    {lg : Log} {run_id : Nat} {pn : Option String} {e : PyErr} {lg' : Log}
    (h : execute_load_node prov node df lg run_id pn = (.error e, lg')) : lg' = lg := by
  unfold execute_load_node at h
  repeat' (first | split at h | dsimp only at h)
  all_goals simp_all

theorem execute_transform_node_error_log {node : Node} {df : DataFrame} {lg : Log}
    {ctx : List (String × DataFrame)} {e : PyErr} {lg' : Log}
    (h : execute_transform_node node df lg ctx = (.error e, lg')) : lg <+: lg' := by
  unfold execute_transform_node at h
  repeat' (first | split at h | dsimp only at h)
  all_goals simp_all
  all_goals (rcases h with ⟨h1, h2⟩; exact h2 ▸ List.prefix_append lg _)

theorem execNodeBody_error_log {prov : Provider} {run_id : Nat} {edges : List Edge}
    {pname : Option String} {st : RunSt} {node : Node} {node_id node_type : String}
    {e : PyErr} {lg' : Log}
    (h : execNodeBody prov run_id edges pname st node node_id node_type = .error (e, lg')) :
    st.runlog <+: lg' := by
  unfold execNodeBody at h
  repeat' (first | split at h | dsimp only at h)
  all_goals simp at h
  all_goals obtain ⟨he, hl⟩ := h
  all_goals (try subst he)
  all_goals subst hl
  all_goals (
    first
      | exact List.prefix_rfl
      | (have hr := execute_source_node_error_log (by assumption); rw [hr])
      | (have hr := execute_load_node_error_log (by assumption); rw [hr])
      | (have hr := execute_transform_node_error_log (by assumption); exact hr))

/-- C8 (confirmed): whenever the per-node try-block of the executor's
loop raises (`execNodeTry` returns an exception), the exception was
caught at the per-node boundary and an ExecutionRecord with ERROR
severity for that node was appended as the last record before the
exception propagates; the loop aborts immediately with no subsequent node
executing, and neither the results map nor the output paths are mutated.
(For operator-body failures, the inner boundary of
`execute_transform_node` has already appended an ERROR record carrying
`rows_in`, as the witness below exhibits.) -/
theorem c8_operator_error_logged_and_aborts {prov : Provider} {run_id : Nat} {edges : List Edge}
    {nodeMap : String → Option Node} {pname : Option String} {st st1 : RunSt}
    {node : Node} {nid t : String} {rest : List String} {e : PyErr}
    (hmap : nodeMap nid = some node) (htyp : node.typ = some t)
    (hstep : execNodeTry prov run_id edges pname st node nid t = (st1, some e)) :
    st1.results = st.results
    ∧ st1.output_paths = st.output_paths
    ∧ st.runlog <+: st1.runlog
    ∧ st1.runlog.getLast? = some ⟨some nid, .ERROR,
        "Node execution failed: " ++ pyErrStr e, Option.none, Option.none⟩
    ∧ execLoop prov run_id edges nodeMap pname (nid :: rest) st = (st1, some e) := by
  have hstep' := hstep
  unfold execNodeTry at hstep
  cases hb : execNodeBody prov run_id edges pname st node nid t with
  | ok st' => rw [hb] at hstep; simp at hstep
  | error pe =>
    obtain ⟨e0, lg0⟩ := pe
    rw [hb] at hstep
    simp only [Prod.mk.injEq, Option.some.injEq] at hstep
    obtain ⟨hst1, he⟩ := hstep
    subst he
    subst hst1
    refine ⟨rfl, rfl, (execNodeBody_error_log hb).trans (List.prefix_append _ _), by simp, ?_⟩
    simp [execLoop, execNode, hmap, htyp, hstep']

def df8 : DataFrame := ⟨["c"], [[("c", Cell.int 1)]]⟩
def node8 : Node := ⟨"f", some "TRANSFORM", some "FILTER",
  some [("column", .str "c"), ("operator", .str "zz"), ("value", .int 0)]⟩
def edges8 : List Edge := [{ fromKey := some "a", toKey := some "f" }]
def st8 : RunSt := ⟨[("a", df8)], [], []⟩
def prov8 : Provider := ⟨fun _ _ => .ok df8, fun _ p => .ok p⟩

/-! ## Kahn correctness -/

def tsResolvePair (e : Edge) : Option (String × String) :=
  match tsResolveFrom e, tsResolveTo e with
  | some u, some v => some (u, v)
  | _, _ => Option.none

def tsPairs (edges : List Edge) : List (String × String) := edges.filterMap tsResolvePair

def tsEdgesOk (keys : List String) (edges : List Edge) : Bool :=
  edges.all (fun e =>
    match tsResolvePair e with
    | some p => decide (p.1 ∈ keys) && decide (p.2 ∈ keys)
    | Option.none => false)

def outsOf (E : List (String × String)) (x : String) : List String :=
  (E.filter (fun p => p.1 = x)).map (·.2)

def inCnt (E : List (String × String)) (v : String) : Nat :=
  (E.filter (fun p => p.2 = v)).length

def inCntFrom (E : List (String × String)) (s : List String) (v : String) : Nat :=
  (E.filter (fun p => decide (p.2 = v) && decide (p.1 ∈ s))).length

theorem tsBuild_ok : ∀ (edges : List Edge) (keys : List String),
    tsEdgesOk keys edges = true →
    ∀ (adj : String → List String) (deg : String → Int),
    ∃ adj' deg', tsBuild keys edges adj deg = .ok (adj', deg')
      ∧ (∀ x, adj' x = adj x ++ outsOf (tsPairs edges) x)
      ∧ (∀ v, deg' v = deg v + (inCnt (tsPairs edges) v : Int))
  | [], _, _, adj, deg =>
    ⟨adj, deg, rfl, fun x => by simp [tsPairs, outsOf], fun v => by simp [tsPairs, inCnt]⟩
  | e :: rest, keys, hok, adj, deg => by
    simp only [tsEdgesOk, List.all_cons, Bool.and_eq_true] at hok
    obtain ⟨he, hrest⟩ := hok
    rcases hp : tsResolvePair e with _ | ⟨u, t⟩
    · rw [hp] at he; exact absurd he (by simp)
    rw [hp] at he
    simp only [Bool.and_eq_true, decide_eq_true_eq] at he
    obtain ⟨hu, ht⟩ := he
    have hfrom : tsResolveFrom e = some u := by
      unfold tsResolvePair at hp
      rcases h1 : tsResolveFrom e with _ | u' <;> rcases h2 : tsResolveTo e with _ | t' <;>
        rw [h1, h2] at hp <;> simp_all
    have hto : tsResolveTo e = some t := by
      unfold tsResolvePair at hp
      rcases h1 : tsResolveFrom e with _ | u' <;> rcases h2 : tsResolveTo e with _ | t' <;>
        rw [h1, h2] at hp <;> simp_all
    obtain ⟨adj', deg', hb, hadj, hdeg⟩ :=
      tsBuild_ok rest keys (by simpa [tsEdgesOk] using hrest)
        (fun x => if x = u then adj x ++ [t] else adj x)
        (fun x => if x = t then deg x + 1 else deg x)
    refine ⟨adj', deg', ?_, ?_, ?_⟩
    · show tsBuild keys (e :: rest) adj deg = _
      unfold tsBuild
      rw [hfrom]
      dsimp only
      rw [if_pos hu, hto]
      dsimp only
      rw [if_pos ht]
      exact hb
    · intro x
      rw [hadj x]
      simp only [tsPairs, List.filterMap_cons, hp, outsOf, List.filter_cons]
      by_cases hx : x = u
      · subst hx
        simp [List.append_assoc]
      · have hux : ¬(u = x) := fun hh => hx hh.symm
        simp [hux, hx]
    · intro v
      rw [hdeg v]
      simp only [tsPairs, List.filterMap_cons, hp, inCnt, List.filter_cons]
      by_cases hv : v = t
      · subst hv
        simp
        omega
      · have htv : ¬(t = v) := fun hh => hv hh.symm
        simp [htv, hv]

theorem length_filter_and_or (f g : (String × String) → Bool) :
    ∀ (l : List (String × String)), (∀ x ∈ l, !(f x && g x)) →
    (l.filter (fun x => f x || g x)).length = (l.filter f).length + (l.filter g).length := by
  intro l
  induction l with
  | nil => intro _; rfl
  | cons a l ih =>
    intro hdisj
    have hd := hdisj a (List.mem_cons_self a l)
    have ht := ih (fun x hx => hdisj x (List.mem_cons_of_mem a hx))
    simp only [List.filter_cons]
    cases hf : f a <;> cases hg : g a <;> simp_all <;> omega

theorem inCntFrom_append (E : List (String × String)) (s : List String) (nid v : String)
    (h : nid ∉ s) :
    inCntFrom E (s ++ [nid]) v
      = inCntFrom E s v
        + (E.filter (fun p => decide (p.2 = v) && decide (p.1 = nid))).length := by
  unfold inCntFrom
  have hc : ∀ p ∈ E, (decide (p.2 = v) && decide (p.1 ∈ s ++ [nid]))
      = ((decide (p.2 = v) && decide (p.1 ∈ s))
          || (decide (p.2 = v) && decide (p.1 = nid))) := by
    intro p _
    by_cases h2 : p.2 = v <;> by_cases h1 : p.1 ∈ s <;> by_cases hn : p.1 = nid <;>
      simp [h2, h1, hn, List.mem_append]
  rw [List.filter_congr hc, length_filter_and_or]
  intro x _
  by_cases h2 : x.2 = v <;> by_cases h1 : x.1 ∈ s <;> by_cases hn : x.1 = nid <;>
    simp_all

theorem count_outsOf (E : List (String × String)) (x v : String) :
    ((outsOf E x).count v)
      = (E.filter (fun p => decide (p.2 = v) && decide (p.1 = x))).length := by
  induction E with
  | nil => rfl
  | cons p E ih =>
    simp only [outsOf, List.filter_cons] at *
    by_cases h1 : p.1 = x <;> by_cases h2 : p.2 = v <;>
      simp_all [List.count_cons]

theorem inCntFrom_le (E : List (String × String)) (s : List String) (v : String) :
    inCntFrom E s v ≤ inCnt E v := by
  unfold inCntFrom inCnt
  induction E with
  | nil => exact Nat.le_refl 0
  | cons p E ih =>
    simp only [List.filter_cons]
    by_cases h2 : p.2 = v <;> by_cases h1 : p.1 ∈ s <;> simp_all <;> omega

theorem inCntFrom_eq_iff (E : List (String × String)) (s : List String) (v : String) :
    inCntFrom E s v = inCnt E v ↔ ∀ p ∈ E, p.2 = v → p.1 ∈ s := by
  induction E with
  | nil => simp [inCntFrom, inCnt]
  | cons q E ih =>
    have hle := inCntFrom_le E s v
    simp only [inCntFrom, inCnt, List.filter_cons] at *
    by_cases h2 : q.2 = v
    · by_cases h1 : q.1 ∈ s
      · simp_all
      · simp_all
        omega
    · simp_all

theorem processNeighbors_spec : ∀ (nbs : List String) (deg : String → Int) (q : List String),
    ∃ newQ : List String,
      processNeighbors nbs deg q
        = (fun x => deg x - (nbs.count x : Int), q ++ newQ)
      ∧ newQ.Nodup
      ∧ (∀ x, x ∈ newQ ↔ (1 ≤ deg x ∧ deg x ≤ (nbs.count x : Int)))
  | [], deg, q => by
    refine ⟨[], ?_, List.nodup_nil, ?_⟩
    · simp only [processNeighbors, List.append_nil]
      congr 1
      funext x
      simp
    · intro x
      simp only [List.not_mem_nil, false_iff, List.count_nil]
      omega
  | nb :: rest, deg, q => by
    have deg1 : String → Int := fun x => if x = nb then deg nb - 1 else deg x
    obtain ⟨newQ', heq, hnd, hmem⟩ :=
      processNeighbors_spec rest (fun x => if x = nb then deg nb - 1 else deg x)
        (if deg nb - 1 = 0 then q ++ [nb] else q)
    refine ⟨(if deg nb = 1 then [nb] else []) ++ newQ', ?_, ?_, ?_⟩
    · show processNeighbors (nb :: rest) deg q = _
      unfold processNeighbors
      rw [heq]
      have hq : (if deg nb - 1 = 0 then q ++ [nb] else q)
          = q ++ (if deg nb = 1 then [nb] else []) := by
        by_cases h1 : deg nb = 1
        · rw [if_pos (by omega), if_pos h1]
        · rw [if_neg (by omega), if_neg h1, List.append_nil]
      rw [hq, List.append_assoc]
      congr 1
      funext x
      by_cases hx : x = nb
      · subst hx
        simp [List.count_cons]
        omega
      · simp [hx, List.count_cons]
    · refine List.Nodup.append ?_ hnd ?_
      · by_cases h1 : deg nb = 1 <;> simp [h1]
      · intro x hx1 hx2
        by_cases h1 : deg nb = 1
        · rw [if_pos h1] at hx1
          have hxnb : x = nb := List.mem_singleton.mp hx1
          subst hxnb
          have := (hmem x).mp hx2
          simp [h1] at this
          try omega
        · rw [if_neg h1] at hx1
          exact List.not_mem_nil x hx1
    · intro x
      simp only [List.mem_append]
      rw [hmem x]
      by_cases hx : x = nb
      · subst hx
        simp [List.count_cons]
        by_cases h1 : deg x = 1 <;> simp [h1] <;> omega
      · simp [hx, List.count_cons]

/-- `x` is a target of an edge out of `nid`. -/
theorem mem_outsOf {E : List (String × String)} {nid x : String} :
    x ∈ outsOf E nid ↔ ∃ p ∈ E, p.1 = nid ∧ p.2 = x := by
  simp only [outsOf, List.mem_map, List.mem_filter, decide_eq_true_eq]
  constructor
  · rintro ⟨p, ⟨hpE, hp1⟩, hp2⟩
    exact ⟨p, hpE, hp1, hp2⟩
  · rintro ⟨p, hpE, hp1, hp2⟩
    exact ⟨p, ⟨hpE, hp1⟩, hp2⟩

/-- The invariant of the `while queue` loop of `topological_sort`:
`s` is the sorted prefix, `q` the queue, `deg` the in-degree counters. -/
structure KahnInv (keys : List String) (E : List (String × String))
    (q s : List String) (deg : String → Int) : Prop where
  nodup : (s ++ q).Nodup
  sub : ∀ x ∈ s ++ q, x ∈ keys
  degEq : ∀ v, deg v = (inCnt E v : Int) - (inCntFrom E s v : Int)
  notZero : ∀ v ∈ keys, v ∉ s → v ∉ q → deg v ≠ 0
  qReady : ∀ v ∈ q, ∀ p ∈ E, p.2 = v → p.1 ∈ s
  sorted : ∀ v ∈ s, ∀ p ∈ E, p.2 = v → p.1 ∈ s ∧ s.indexOf p.1 < s.indexOf v

theorem KahnInv.deg_zero_of_ready {keys E q s deg} (inv : KahnInv keys E q s deg)
    {v : String} (hv : ∀ p ∈ E, p.2 = v → p.1 ∈ s) : deg v = 0 := by
  rw [inv.degEq v, (inCntFrom_eq_iff E s v).mpr hv]
  exact sub_self _

theorem KahnInv.deg_zero_of_mem {keys E q s deg} (inv : KahnInv keys E q s deg)
    {v : String} (hv : v ∈ s ++ q) : deg v = 0 := by
  rcases List.mem_append.mp hv with hs | hq
  · exact inv.deg_zero_of_ready (fun p hp h2 => ((inv.sorted v hs) p hp h2).1)
  · exact inv.deg_zero_of_ready (inv.qReady v hq)

theorem kahnInv_step {keys : List String} {E : List (String × String)}
    (hE : ∀ p ∈ E, p.1 ∈ keys ∧ p.2 ∈ keys)
    {nid : String} {q s : List String} {deg : String → Int}
    (inv : KahnInv keys E (nid :: q) s deg) :
    KahnInv keys E (processNeighbors (outsOf E nid) deg q).2 (s ++ [nid])
      (processNeighbors (outsOf E nid) deg q).1 := by
  obtain ⟨newQ, heq, hndQ, hmem⟩ := processNeighbors_spec (outsOf E nid) deg q
  rw [heq]
  dsimp only
  have hbase : ((s ++ [nid]) ++ q).Nodup := by
    rw [List.append_assoc]
    exact inv.nodup
  have hnidS : nid ∉ s := by
    intro hmemS
    have h1 : (s ++ [nid]).Nodup := hbase.of_append_left
    exact (List.nodup_append.mp h1).2.2 hmemS (List.mem_singleton_self nid)
  have hmemZero : ∀ v, v ∈ s ++ nid :: q → deg v = 0 := fun v hv => inv.deg_zero_of_mem hv
  have hnewQnotOld : ∀ x ∈ newQ, x ∉ s ++ nid :: q := by
    intro x hx hmemOld
    have h1 := (hmem x).mp hx
    have h0 := hmemZero x hmemOld
    omega
  have hnewQkeys : ∀ x ∈ newQ, x ∈ keys := by
    intro x hx
    have h1 := (hmem x).mp hx
    have hcount : 0 < (outsOf E nid).count x := by
      by_contra hc
      push_neg at hc
      interval_cases h : (outsOf E nid).count x
      · simp [h] at h1
        omega
    have hxmem : x ∈ outsOf E nid := List.count_pos_iff.mp hcount
    obtain ⟨p, hpE, _, hp2⟩ := mem_outsOf.mp hxmem
    exact hp2 ▸ (hE p hpE).2
  refine ⟨?_, ?_, ?_, ?_, ?_, ?_⟩
  · rw [← List.append_assoc]
    refine List.Nodup.append ?_ hndQ ?_
    · rwa [List.append_assoc] at hbase ⊢
    · intro x hx1 hx2
      apply hnewQnotOld x hx2
      rcases List.mem_append.mp hx1 with h | h
      · rcases List.mem_append.mp h with h' | h'
        · exact List.mem_append.mpr (Or.inl h')
        · exact List.mem_append.mpr (Or.inr (List.mem_singleton.mp h' ▸ List.mem_cons_self nid q))
      · exact List.mem_append.mpr (Or.inr (List.mem_cons_of_mem nid h))
  · intro x hx
    rcases List.mem_append.mp hx with h | h
    · rcases List.mem_append.mp h with h' | h'
      · exact inv.sub x (List.mem_append.mpr (Or.inl h'))
      · exact List.mem_singleton.mp h' ▸
          inv.sub nid (List.mem_append.mpr (Or.inr (List.mem_cons_self nid q)))
    · rcases List.mem_append.mp h with h' | h'
      · exact inv.sub x (List.mem_append.mpr (Or.inr (List.mem_cons_of_mem nid h')))
      · exact hnewQkeys x h'
  · intro v
    have h1 := inv.degEq v
    have h2 := inCntFrom_append E s nid v hnidS
    have h3 := count_outsOf E nid v
    try dsimp only
    omega
  · intro v hvk hvs hvq
    try dsimp only
    have hvS : v ∉ s := fun h => hvs (List.mem_append.mpr (Or.inl h))
    have hvnid : v ≠ nid := fun h => hvs (List.mem_append.mpr (Or.inr (by simp [h])))
    have hvQ : v ∉ q := fun h => hvq (List.mem_append.mpr (Or.inl h))
    have hvNew : v ∉ newQ := fun h => hvq (List.mem_append.mpr (Or.inr h))
    have hold : deg v ≠ 0 := inv.notZero v hvk hvS (by simp [hvnid, hvQ])
    intro h0
    by_cases hc : (outsOf E nid).count v = 0
    · rw [hc] at h0
      simp at h0
      exact hold h0
    · exact hvNew ((hmem v).mpr (by omega))
  · intro v hv p hpE hp2
    rcases List.mem_append.mp hv with hq | hnew
    · exact List.mem_append.mpr
        (Or.inl (inv.qReady v (List.mem_cons_of_mem nid hq) p hpE hp2))
    · have h1 := (hmem v).mp hnew
      have hdeg := inv.degEq v
      have happ := inCntFrom_append E s nid v hnidS
      have hco := count_outsOf E nid v
      have hle := inCntFrom_le E (s ++ [nid]) v
      have heqc : inCntFrom E (s ++ [nid]) v = inCnt E v := by omega
      exact (inCntFrom_eq_iff E (s ++ [nid]) v).mp heqc p hpE hp2
  · intro v hv p hpE hp2
    rcases List.mem_append.mp hv with hs | hnid
    · obtain ⟨hm, hlt⟩ := inv.sorted v hs p hpE hp2
      refine ⟨List.mem_append.mpr (Or.inl hm), ?_⟩
      rw [List.indexOf_append_of_mem hm, List.indexOf_append_of_mem hs]
      exact hlt
    · have hvnid := List.mem_singleton.mp hnid
      subst hvnid
      have hpred : p.1 ∈ s := inv.qReady v (List.mem_cons_self v q) p hpE hp2
      refine ⟨List.mem_append.mpr (Or.inl hpred), ?_⟩
      rw [List.indexOf_append_of_mem hpred, List.indexOf_append_of_not_mem hnidS]
      have hlt := List.indexOf_lt_length.mpr hpred
      simp [List.indexOf_cons_self]
      omega

theorem kahnInv_init {keys : List String} {E : List (String × String)}
    (hkeys : keys.Nodup) (hE : ∀ p ∈ E, p.1 ∈ keys ∧ p.2 ∈ keys)
    {deg : String → Int} (hdeg : ∀ v, deg v = (inCnt E v : Int)) :
    KahnInv keys E (keys.filter (fun k => deg k = 0)) [] deg := by
  refine ⟨?_, ?_, ?_, ?_, ?_, ?_⟩
  · simpa using hkeys.filter _
  · intro x hx
    simp only [List.nil_append] at hx
    exact (List.mem_filter.mp hx).1
  · intro v
    rw [hdeg v]
    have h0 : inCntFrom E [] v = 0 := by
      simp [inCntFrom]
    rw [h0]
    simp
  · intro v hvk _ hvq h0
    apply hvq
    try simp only [List.nil_append]
    exact List.mem_filter.mpr ⟨hvk, by simpa using h0⟩
  · intro v hv p hpE hp2
    exfalso
    have hv' : v ∈ keys ∧ deg v = 0 := by simpa using hv
    have h0 : deg v = 0 := hv'.2
    rw [hdeg v] at h0
    have hcnt : inCnt E v = 0 := by exact_mod_cast h0
    have : p ∈ E.filter (fun p => decide (p.2 = v)) := List.mem_filter.mpr ⟨hpE, by simpa using hp2⟩
    have hlen : 0 < (E.filter (fun p => decide (p.2 = v))).length := List.length_pos.mpr (by
      intro hnil
      rw [hnil] at this
      exact List.not_mem_nil p this)
    exact absurd hcnt (by unfold inCnt; omega)
  · intro v hv
    exact absurd hv (List.not_mem_nil v)

theorem kahnInv_length_le {keys : List String} {E : List (String × String)}
    {q s : List String} {deg : String → Int} (inv : KahnInv keys E q s deg) :
    s.length + q.length ≤ keys.length := by
  have h1 : (s ++ q).toFinset.card = (s ++ q).length := List.toFinset_card_of_nodup inv.nodup
  have h2 : (s ++ q).toFinset ⊆ keys.toFinset := by
    intro x hx
    rw [List.mem_toFinset] at hx ⊢
    exact inv.sub x hx
  calc s.length + q.length = (s ++ q).length := (List.length_append _ _).symm
    _ = (s ++ q).toFinset.card := h1.symm
    _ ≤ keys.toFinset.card := Finset.card_le_card h2
    _ ≤ keys.length := keys.toFinset_card_le

theorem kahnLoop_ok {keys : List String} {E : List (String × String)}
    (hE : ∀ p ∈ E, p.1 ∈ keys ∧ p.2 ∈ keys)
    (adj : String → List String) (hadj : ∀ x, adj x = outsOf E x) :
    ∀ (fuel : Nat) (q s : List String) (deg : String → Int),
      KahnInv keys E q s deg →
      keys.length ≤ s.length + fuel →
      ∃ S degF, kahnLoop adj fuel q s deg = some S ∧ KahnInv keys E [] S degF
  | fuel, [], s, deg, inv, _ => by
    refine ⟨s, deg, ?_, inv⟩
    cases fuel <;> rfl
  | 0, nid :: q, s, deg, inv, hfuel => by
    exfalso
    have := kahnInv_length_le inv
    simp only [List.length_cons] at this
    omega
  | fuel + 1, nid :: q, s, deg, inv, hfuel => by
    have hstep := kahnInv_step hE inv
    rcases hpn : processNeighbors (outsOf E nid) deg q with ⟨d', q''⟩
    rw [hpn] at hstep
    dsimp only at hstep
    obtain ⟨S, degF, hl, hinv⟩ :=
      kahnLoop_ok hE adj hadj fuel q'' (s ++ [nid]) d' hstep
        (by simp only [List.length_append, List.length_singleton]; omega)
    refine ⟨S, degF, ?_, hinv⟩
    show kahnLoop adj (fuel + 1) (nid :: q) s deg = some S
    unfold kahnLoop
    rw [hadj nid, hpn]
    exact hl

/-- One directed edge of the resolved graph. -/
def stepRel (E : List (String × String)) (u v : String) : Prop := (u, v) ∈ E

/-- The resolved edge list has no directed cycle: no node reaches itself
by a nonempty edge path. -/
def AcyclicPairs (E : List (String × String)) : Prop :=
  ∀ v, ¬ Relation.TransGen (stepRel E) v v

/-- A graph whose edges all strictly increase some measure is acyclic
(used to discharge acyclicity at concrete graphs). -/
theorem acyclicPairs_of_measure {E : List (String × String)} (m : String → Nat)
    (h : ∀ p ∈ E, m p.1 < m p.2) : AcyclicPairs E := by
  intro v hv
  have hmono : ∀ a b : String, Relation.TransGen (stepRel E) a b → m a < m b := by
    intro a b hab
    induction hab with
    | single h' => exact h _ h'
    | tail _ h' ih => exact Nat.lt_trans ih (h _ h')
  exact absurd (hmono v v hv) (Nat.lt_irrefl _)

theorem kahnInv_final_complete {keys : List String} {E : List (String × String)}
    {S : List String} {deg : String → Int}
    (hE : ∀ p ∈ E, p.1 ∈ keys ∧ p.2 ∈ keys)
    (inv : KahnInv keys E [] S deg) (hacyc : AcyclicPairs E) :
    ∀ v ∈ keys, v ∈ S := by
  classical
  by_contra hcon
  push_neg at hcon
  obtain ⟨v0, hv0k, hv0S⟩ := hcon
  have hpred : ∀ v, v ∈ keys ∧ v ∉ S → ∃ u, (u ∈ keys ∧ u ∉ S) ∧ (u, v) ∈ E := by
    rintro v ⟨hvk, hvS⟩
    have hd : deg v ≠ 0 := inv.notZero v hvk hvS (List.not_mem_nil v)
    have hne : inCntFrom E S v ≠ inCnt E v := by
      intro hcnt
      apply hd
      rw [inv.degEq v, hcnt]
      exact sub_self _
    have hnall : ¬∀ p ∈ E, p.2 = v → p.1 ∈ S :=
      fun hall => hne ((inCntFrom_eq_iff E S v).mpr hall)
    push_neg at hnall
    obtain ⟨p, hpE, hp2, hp1S⟩ := hnall
    refine ⟨p.1, ⟨(hE p hpE).1, hp1S⟩, ?_⟩
    have : p = (p.1, v) := by
      rw [← hp2]
    rwa [this] at hpE
  let P : String → Prop := fun v => v ∈ keys ∧ v ∉ S
  let g : String → String := fun v => if h : P v then (hpred v h).choose else v
  have hg : ∀ v, P v → P (g v) ∧ (g v, v) ∈ E := by
    intro v hPv
    have hs := (hpred v hPv).choose_spec
    constructor
    · show P (dite _ _ _)
      rw [dif_pos hPv]
      exact hs.1
    · show (dite _ _ _, v) ∈ E
      rw [dif_pos hPv]
      exact hs.2
  have hPiter : ∀ k : Nat, P (g^[k] v0) := by
    intro k
    induction k with
    | zero => exact ⟨hv0k, hv0S⟩
    | succ n ih =>
      rw [Function.iterate_succ_apply']
      exact (hg _ ih).1
  have hchain : ∀ (n k : Nat), 0 < k →
      Relation.TransGen (stepRel E) (g^[n + k] v0) (g^[n] v0) := by
    intro n k hk
    induction k with
    | zero => omega
    | succ m ih =>
      rcases Nat.eq_zero_or_pos m with hm | hm
      · subst hm
        have h1 : g^[n + 1] v0 = g (g^[n] v0) := Function.iterate_succ_apply' g n v0
        rw [h1]
        exact Relation.TransGen.single ((hg _ (hPiter n)).2)
      · have hstep : g^[n + (m + 1)] v0 = g (g^[n + m] v0) := by
          rw [← Nat.add_assoc]
          exact Function.iterate_succ_apply' g (n + m) v0
        rw [hstep]
        exact Relation.TransGen.head ((hg _ (hPiter (n + m))).2) (ih hm)
  have hmap : ∀ i : Fin (keys.length + 1), (fun i : Fin (keys.length + 1) => g^[i.1] v0) i
      ∈ keys.toFinset := by
    intro i
    rw [List.mem_toFinset]
    exact (hPiter i.1).1
  have hcard : keys.toFinset.card < (Finset.univ : Finset (Fin (keys.length + 1))).card := by
    rw [Finset.card_univ, Fintype.card_fin]
    exact Nat.lt_succ_of_le keys.toFinset_card_le
  obtain ⟨i, _, j, _, hij, heq⟩ :=
    Finset.exists_ne_map_eq_of_card_lt_of_maps_to hcard (fun i _ => hmap i)
  rcases Nat.lt_or_ge i.1 j.1 with hlt | hge
  · have hc := hchain i.1 (j.1 - i.1) (by omega)
    rw [show i.1 + (j.1 - i.1) = j.1 by omega] at hc
    rw [heq] at hc
    exact hacyc _ hc
  · have hlt' : j.1 < i.1 := by
      rcases Nat.lt_or_ge j.1 i.1 with h' | h'
      · exact h'
      · exact absurd (Fin.ext (by omega)) hij
    have hc := hchain j.1 (i.1 - j.1) (by omega)
    rw [show j.1 + (i.1 - j.1) = i.1 by omega] at hc
    rw [← heq] at hc
    exact hacyc _ hc

theorem tsEdgesOk_pairs {keys : List String} {edges : List Edge}
    (hok : tsEdgesOk keys edges = true) :
    ∀ p ∈ tsPairs edges, p.1 ∈ keys ∧ p.2 ∈ keys := by
  intro p hp
  rw [tsPairs, List.mem_filterMap] at hp
  obtain ⟨e, heE, hres⟩ := hp
  have h := (List.all_eq_true.mp hok) e heE
  rw [hres] at h
  simpa using h

/-- The claim-facing statement: `topological_sort` succeeds, its result is
a permutation of the node ids, and every resolved edge goes forward in
the order. -/
def topoOrderOk (nodes : List Node) (edges : List Edge) : Prop :=
  match topological_sort nodes edges with
  | .ok l => l.Perm (nodes.map (·.id))
      ∧ ∀ p ∈ tsPairs edges, l.indexOf p.1 < l.indexOf p.2
  | .error _ => False

/-- C3 (confirmed): on every well-formed acyclic graph (unique node ids,
every edge resolving through the `from`/`from_node` and `to`/`to_node`
keys to existing node ids, no directed cycle), `topological_sort` returns
a permutation of all node ids in which, for every resolved edge `(u, v)`,
`u` appears strictly before `v`. -/
theorem c3_topological_sort_correct_on_dags (nodes : List Node) (edges : List Edge)
    (hnd : (nodes.map (·.id)).Nodup)
    (hok : tsEdgesOk (nodes.map (·.id)) edges = true)
    (hacyc : AcyclicPairs (tsPairs edges)) :
    topoOrderOk nodes edges := by
  have hE := tsEdgesOk_pairs hok
  obtain ⟨adj, deg, hb, hadj, hdeg⟩ :=
    tsBuild_ok edges (nodes.map (·.id)) hok (fun _ => []) (fun _ => 0)
  have hdeg' : ∀ v, deg v = (inCnt (tsPairs edges) v : Int) := by
    intro v
    rw [hdeg v]
    simp
  have hadj' : ∀ x, adj x = outsOf (tsPairs edges) x := by
    intro x
    rw [hadj x]
    simp
  have hinv0 := kahnInv_init hnd hE hdeg'
  obtain ⟨S, degF, hloop, hinvF⟩ :=
    kahnLoop_ok hE adj hadj' (nodes.length + 1)
      ((nodes.map (·.id)).filter (fun k => deg k = 0)) [] deg hinv0
      (by simp only [List.length_nil, List.length_map]; omega)
  have hSnd : S.Nodup := by
    have := hinvF.nodup
    simpa using this
  have hSsub : ∀ x ∈ S, x ∈ nodes.map (·.id) := by
    intro x hx
    exact hinvF.sub x (by simpa using hx)
  have hcomplete := kahnInv_final_complete hE hinvF hacyc
  have hperm : S.Perm (nodes.map (·.id)) := by
    rw [List.perm_ext_iff_of_nodup hSnd hnd]
    intro a
    exact ⟨fun h => hSsub a h, fun h => hcomplete a h⟩
  have hlen : S.length = nodes.length := by
    rw [hperm.length_eq]
    exact List.length_map _ _
  have hout : topological_sort nodes edges = .ok S := by
    unfold topological_sort
    rw [dedupKeys_of_nodup hnd]
    dsimp only
    rw [hb]
    dsimp only
    rw [hloop]
    dsimp only
    rw [if_neg (by omega)]
  rw [topoOrderOk, hout]
  refine ⟨hperm, ?_⟩
  intro p hp
  have hp2S : p.2 ∈ S := hcomplete p.2 (hE p hp).2
  exact (hinvF.sorted p.2 (by simpa using hp2S) p hp rfl).2

def c3NodesW : List Node :=
  [⟨"a", some "SOURCE", Option.none, Option.none⟩,
   ⟨"b", some "LOAD", Option.none, Option.none⟩]

def c3EdgesW : List Edge := [{ fromKey := some "a", toKey := some "b" }]

/-- Witness for C3 on the concrete DAG `a → b`, with acyclicity
discharged by a strictly increasing measure. -/
theorem c3_topological_sort_correct_on_dags_witness : topoOrderOk c3NodesW c3EdgesW := by
  apply c3_topological_sort_correct_on_dags
  · decide
  · rfl
  · exact acyclicPairs_of_measure (fun s => if s = "b" then 1 else 0) (by decide)

def st8out : RunSt := ⟨[("a", df8)],
  [⟨some "f", .ERROR, "Transform failed: Unknown operator: zz", some 1, Option.none⟩,
   ⟨some "f", .ERROR, "Node execution failed: Unknown operator: zz", Option.none, Option.none⟩],
  []⟩

def nodeMap8 : String → Option Node := fun nid => if nid = "f" then some node8 else Option.none

/-- Witness for C8: a FILTER node with an unknown operator fails; the
log gains the inner ERROR record carrying `rows_in = 1` and ends with the
node-boundary ERROR record, results and outputs are untouched, and the
following node `next` never executes. -/
theorem c8_operator_error_logged_and_aborts_witness :
    nodeMap8 "f" = some node8
    ∧ node8.typ = some "TRANSFORM"
    ∧ execNodeTry prov8 0 edges8 Option.none st8 node8 "f" "TRANSFORM"
        = (st8out, some (.valueError "Unknown operator: zz"))
    ∧ st8out.results = st8.results
    ∧ st8out.output_paths = st8.output_paths
    ∧ st8.runlog <+: st8out.runlog
    ∧ st8out.runlog.getLast? = some ⟨some "f", .ERROR,
        "Node execution failed: " ++ pyErrStr (.valueError "Unknown operator: zz"),
        Option.none, Option.none⟩
    ∧ execLoop prov8 0 edges8 nodeMap8 Option.none ["f", "next"] st8
        = (st8out, some (.valueError "Unknown operator: zz")) := by
  have h := @c8_operator_error_logged_and_aborts prov8 0 edges8 nodeMap8 Option.none st8 st8out node8 "f" "TRANSFORM"
    ["next"] (.valueError "Unknown operator: zz") rfl rfl rfl
  obtain ⟨h1, h2, h3, h4, h5⟩ := h
  exact ⟨rfl, rfl, rfl, h1, h2, h3, h4, h5⟩

def c10Df : DataFrame :=
  ⟨["c"], [[("c", Cell.str "xyz")], [("c", Cell.null)], [("c", Cell.int 5)]]⟩

/-- Witness for C10 on a concrete dataset with a string row, a missing
row and an integer row: only the matching string row survives. -/
theorem c10_filter_contains_drops_nulls_witness :
    "c" ∈ c10Df.cols
    ∧ execute_transform_node (mkFilterContainsNode "f1" "c" (.str "y")) c10Df [] []
        = (Except.ok ⟨["c"], [[("c", Cell.str "xyz")]]⟩,
           [⟨some "f1", .INFO, "Filtered by c contains y", some 3, some 1⟩])
    ∧ cellContains "y" Cell.null = false := by
  have h := c10_filter_contains_drops_nulls "f1" "c" (.str "y") c10Df [] [] (by decide)
  exact ⟨by decide, h.1.trans (by rfl), h.2 "y"⟩
